import Mathlib

/-!
Verification development for the bank-transaction ETL backend
(parsers, categorization engine, staging and fact loader).

Strings from the Python source are modelled as `List Char`; Python floats
are modelled as exact rationals `ℚ`; `None`-able values as `Option`;
database rows as Lean structures.  Each definition is a direct translation
of the function of the same name in the repository, with the file and
function named in its doc comment.
-/

deriving instance DecidableEq for Except

/-- Character test for ASCII decimal digits, as used by the regex class [0-9]. -/
def isDig (c : Char) : Bool := '0' ≤ c && c ≤ '9'

/-- Numeric value of an ASCII digit character. -/
def digVal (c : Char) : Nat := c.toNat - '0'.toNat

/-- ASCII lower-casing of one character (Python str.lower on ASCII data). -/
def lowChar (c : Char) : Char :=
  if 'A' ≤ c ∧ c ≤ 'Z' then Char.ofNat (c.toNat + 32) else c

/-- ASCII upper-casing of one character (Python str.upper on ASCII data). -/
def upChar (c : Char) : Char :=
  if 'a' ≤ c ∧ c ≤ 'z' then Char.ofNat (c.toNat - 32) else c

/-- Python str.lower over a whole string. -/
def lowStr (s : List Char) : List Char := s.map lowChar

/-- Python str.upper over a whole string. -/
def upStr (s : List Char) : List Char := s.map upChar

/-- Whitespace test matching the regex class \s on the ASCII range. -/
def isWs (c : Char) : Bool := c == ' ' || c == '\t' || c == '\n' || c == '\r' || c == '\x0b' || c == '\x0c'

/-- Python str.strip: drop leading and trailing whitespace. -/
def pyStrip (s : List Char) : List Char :=
  ((s.dropWhile isWs).reverse.dropWhile isWs).reverse

/-- Boolean list-prefix test (used to model regex literal matching). -/
def isPre (p s : List Char) : Bool :=
  match p, s with
  | [], _ => true
  | _ :: _, [] => false
  | a :: ps, b :: ss => a == b && isPre ps ss

/-- Python substring containment, the semantics of `pat in hay`. -/
def containsSub (hay pat : List Char) : Bool :=
  isPre pat hay ||
    (match hay with
     | [] => false
     | _ :: t => containsSub t pat)

/-- Case-insensitive prefix test (for regex alternatives compiled with IGNORECASE). -/
def isPreCI (p s : List Char) : Bool := isPre (lowStr p) (lowStr (s.take p.length))

/-- Python `any(k in text for k in kws)` over a keyword list. -/
def anyContains (text : List Char) (kws : List (List Char)) : Bool :=
  kws.any (fun k => containsSub text k)

/-- Exact decimal number man / 10 ^ exp, the model of the Python floats
flowing through this pipeline (all of which are parsed from decimal text;
the pipeline never does float arithmetic, only comparisons, negation tests
and absolute value, so the exact-decimal model is faithful). -/
structure Dec where
  man : Int
  exp : Nat
deriving DecidableEq, Repr

/-- Rational value of an exact decimal. -/
def Dec.val (d : Dec) : ℚ := (d.man : ℚ) / (10 : ℚ) ^ d.exp

/-- Python comparison float > 0. -/
def Dec.isPos (d : Dec) : Bool := 0 < d.man

/-- Python comparison float < 0. -/
def Dec.isNeg (d : Dec) : Bool := d.man < 0

/-- Python comparison float == 0. -/
def Dec.isZero (d : Dec) : Bool := d.man == 0

/-- Python abs() on a float. -/
def Dec.dabs (d : Dec) : Dec := ⟨|d.man|, d.exp⟩

/-- Canonical form with trailing fractional zeros removed, so that two
decimals are structurally equal exactly when they denote the same value. -/
def Dec.normAux (man : Int) : Nat → Dec
  | 0 => ⟨man, 0⟩
  | e + 1 => if man % 10 == 0 then Dec.normAux (man / 10) e else ⟨man, e + 1⟩

/-- Canonical form entry point working on the mantissa and exponent. -/
def Dec.norm (d : Dec) : Dec := Dec.normAux d.man d.exp

/-- The decimal 0. -/
def Dec.zero : Dec := ⟨0, 0⟩

/-- Python float() on a comma-free decimal string: optional sign, digits,
optional fractional part.  Returns none where float() raises ValueError. -/
def pyFloat (s : List Char) : Option Dec :=
  let core := fun (t : List Char) (sign : Int) =>
    let intPart := t.takeWhile isDig
    let rest := t.drop intPart.length
    let intVal : Nat := intPart.foldl (fun a c => a * 10 + digVal c) 0
    match rest with
    | [] => if intPart.isEmpty then none else some (⟨sign * intVal, 0⟩ : Dec)
    | '.' :: fr =>
      let frD := fr.takeWhile isDig
      if frD.length ≠ fr.length then none
      else if intPart.isEmpty ∧ frD.isEmpty then none
      else
        let allVal : Nat := (intPart ++ frD).foldl (fun a c => a * 10 + digVal c) 0
        some (⟨sign * allVal, frD.length⟩ : Dec)
    | _ => none
  match s with
  | '-' :: t => core t (-1)
  | '+' :: t => core t 1
  | t => core t 1

/-- Removal of thousands separators, the semantics of str.replace(",", ""). -/
def stripCommas (s : List Char) : List Char := s.filter (fun c => c ≠ ',')

/-- Calendar date (year, month, day) as produced by datetime.date. -/
structure DateD where
  year : Nat
  month : Nat
  day : Nat
deriving DecidableEq, Repr

/-- Gregorian leap-year test, as in Python's calendar handling. -/
def isLeap (y : Nat) : Bool := y % 4 == 0 && (y % 100 != 0 || y % 400 == 0)

/-- Number of days in a month, used by datetime's validity check. -/
def daysInMonth (y m : Nat) : Nat :=
  if m == 2 then (if isLeap y then 29 else 28)
  else if m == 4 || m == 6 || m == 9 || m == 11 then 30
  else 31

/-- Datetime constructor validity: datetime.date(y, m, d) succeeds exactly
under these bounds (MINYEAR = 1, MAXYEAR = 9999). -/
def validDate (y m d : Nat) : Bool :=
  1 ≤ y && y ≤ 9999 && 1 ≤ m && m ≤ 12 && 1 ≤ d && d ≤ daysInMonth y m

/-- Format tokens of the strptime directives used by this repository.
CPython compiles each directive to a regex fragment: %d to
(3[01]|[12]\d|0[1-9]|[1-9]), %m to (1[0-2]|0[1-9]|[1-9]), %Y to exactly
four digits, %y to exactly two digits (mapped to 2000+v for v ≤ 68, else
1900+v), %b to a three-letter month abbreviation, %B to a full month name,
both case-insensitive; a literal space matches \s+ and any other literal
character matches itself. -/
inductive FTok where
  | fD
  | fM
  | fY4
  | fY2
  | fB
  | fBfull
  | lit (c : Char)
  | ws

/-- Partial date accumulated while matching a strptime format. -/
structure PartDate where
  d : Nat := 0
  m : Nat := 0
  y : Nat := 0

/-- Three-letter month abbreviations recognised by %b (C locale). -/
def monthAbbrevs : List (List Char × Nat) :=
  [("jan".toList, 1), ("feb".toList, 2), ("mar".toList, 3), ("apr".toList, 4),
   ("may".toList, 5), ("jun".toList, 6), ("jul".toList, 7), ("aug".toList, 8),
   ("sep".toList, 9), ("oct".toList, 10), ("nov".toList, 11), ("dec".toList, 12)]

/-- Full month names recognised by %B (C locale), tried longest first as in
the compiled regex alternation. -/
def monthFulls : List (List Char × Nat) :=
  [("september".toList, 9), ("february".toList, 2), ("november".toList, 11),
   ("december".toList, 12), ("january".toList, 1), ("october".toList, 10),
   ("august".toList, 8), ("march".toList, 3), ("april".toList, 4),
   ("june".toList, 6), ("july".toList, 7), ("may".toList, 5)]

/-- Matching alternatives for one strptime token, returned in the regex
alternation's preference order as (updated date, remaining input) pairs. -/
def mTok (t : FTok) (pd : PartDate) (cs : List Char) : List (PartDate × List Char) :=
  match t with
  | .fD =>
    (match cs with
     | c1 :: c2 :: r =>
       (if c1 == '3' && (c2 == '0' || c2 == '1') then [({ pd with d := 30 + digVal c2 }, r)] else []) ++
       (if (c1 == '1' || c1 == '2') && isDig c2 then [({ pd with d := 10 * digVal c1 + digVal c2 }, r)] else []) ++
       (if c1 == '0' && isDig c2 && c2 != '0' then [({ pd with d := digVal c2 }, r)] else []) ++
       (if isDig c1 && c1 != '0' then [({ pd with d := digVal c1 }, c2 :: r)] else [])
     | [c1] => if isDig c1 && c1 != '0' then [({ pd with d := digVal c1 }, [])] else []
     | [] => [])
  | .fM =>
    (match cs with
     | c1 :: c2 :: r =>
       (if c1 == '1' && (c2 == '0' || c2 == '1' || c2 == '2') then [({ pd with m := 10 + digVal c2 }, r)] else []) ++
       (if c1 == '0' && isDig c2 && c2 != '0' then [({ pd with m := digVal c2 }, r)] else []) ++
       (if isDig c1 && c1 != '0' then [({ pd with m := digVal c1 }, c2 :: r)] else [])
     | [c1] => if isDig c1 && c1 != '0' then [({ pd with m := digVal c1 }, [])] else []
     | [] => [])
  | .fY4 =>
    (match cs with
     | c1 :: c2 :: c3 :: c4 :: r =>
       if isDig c1 && isDig c2 && isDig c3 && isDig c4 then
         [({ pd with y := ((digVal c1 * 10 + digVal c2) * 10 + digVal c3) * 10 + digVal c4 }, r)]
       else []
     | _ => [])
  | .fY2 =>
    (match cs with
     | c1 :: c2 :: r =>
       if isDig c1 && isDig c2 then
         let v := digVal c1 * 10 + digVal c2
         [({ pd with y := if v ≤ 68 then 2000 + v else 1900 + v }, r)]
       else []
     | _ => [])
  | .fB =>
    monthAbbrevs.filterMap (fun (nm, v) =>
      if isPreCI nm cs then some ({ pd with m := v }, cs.drop nm.length) else none)
  | .fBfull =>
    monthFulls.filterMap (fun (nm, v) =>
      if isPreCI nm cs then some ({ pd with m := v }, cs.drop nm.length) else none)
  | .lit c =>
    (match cs with
     | c0 :: r => if c0 == c then [(pd, r)] else []
     | [] => [])
  | .ws =>
    let run := (cs.takeWhile isWs).length
    (List.range run).map (fun i => (pd, cs.drop (run - i)))

/-- Backtracking matcher for a whole strptime format, producing all matches
in the regex engine's preference order. -/
def matchFmt (f : List FTok) (pd : PartDate) (cs : List Char) : List (PartDate × List Char) :=
  match f with
  | [] => [(pd, cs)]
  | t :: rest => (mTok t pd cs).flatMap (fun (pd2, cs2) => matchFmt rest pd2 cs2)

/-- CPython time.strptime semantics for the date-only directives used here:
the regex is matched at the start of the string (first match in preference
order); a match with unconverted trailing data raises ValueError, as does
an out-of-range calendar date.  ValueError is modelled as none. -/
def strptimeD (f : List FTok) (s : List Char) : Option DateD :=
  match (matchFmt f {} s).head? with
  | none => none
  | some (pd, rest) =>
    if rest.isEmpty then
      if validDate pd.y pd.m pd.d then some ⟨pd.y, pd.m, pd.d⟩ else none
    else none

/-- Format %d/%m/%Y. -/
def fmtDMYslash : List FTok := [.fD, .lit '/', .fM, .lit '/', .fY4]

/-- Format %d/%m/%y. -/
def fmtDMyslash : List FTok := [.fD, .lit '/', .fM, .lit '/', .fY2]

/-- Format %d-%m-%Y. -/
def fmtDMYdash : List FTok := [.fD, .lit '-', .fM, .lit '-', .fY4]

/-- Format %d-%m-%y. -/
def fmtDMydash : List FTok := [.fD, .lit '-', .fM, .lit '-', .fY2]

/-- Format %Y-%m-%d. -/
def fmtYMDdash : List FTok := [.fY4, .lit '-', .fM, .lit '-', .fD]

/-- Format %d-%b-%Y. -/
def fmtDbYdash : List FTok := [.fD, .lit '-', .fB, .lit '-', .fY4]

/-- Format %d/%b/%Y. -/
def fmtDbYslash : List FTok := [.fD, .lit '/', .fB, .lit '/', .fY4]

/-- Format %m/%d/%Y. -/
def fmtMDYslash : List FTok := [.fM, .lit '/', .fD, .lit '/', .fY4]

/-- Format %m-%d-%Y. -/
def fmtMDYdash : List FTok := [.fM, .lit '-', .fD, .lit '-', .fY4]

/-- Format %d %b %Y. -/
def fmtDbYspace : List FTok := [.fD, .ws, .fB, .ws, .fY4]

/-- Format %d %B %Y. -/
def fmtDBfullYspace : List FTok := [.fD, .ws, .fBfull, .ws, .fY4]

/-- First-success trial of a list of strptime formats on one string:
the semantics of a for-loop of try/except ValueError around
datetime.strptime. -/
def tryFormats (fs : List (List FTok)) (s : List Char) : Option DateD :=
  fs.findSome? (fun f => strptimeD f s)

/-- Worker for splitLines, structurally recursive on the input. -/
def splitLinesAux (cur : List Char) : List Char → List (List Char)
  | [] => [cur.reverse]
  | '\r' :: '\n' :: [] => [cur.reverse]
  | '\r' :: '\n' :: r => cur.reverse :: splitLinesAux [] r
  | '\n' :: [] => [cur.reverse]
  | '\n' :: r => cur.reverse :: splitLinesAux [] r
  | '\r' :: [] => [cur.reverse]
  | '\r' :: r => cur.reverse :: splitLinesAux [] r
  | c :: r => splitLinesAux (c :: cur) r

/-- Python str.splitlines restricted to the line breaks that occur in
extracted text: newline, carriage return, and their combination. -/
def splitLines (s : List Char) : List (List Char) :=
  match s with
  | [] => []
  | _ => splitLinesAux [] s

/-- Matched capture groups of the transaction-line regex
(date, desc, amount, dc) used by every generic line parser in the
repository: a date of one-or-two digits, a slash-or-dash separator,
one-or-two digits, a separator and two-to-four digits; whitespace; a lazy
nonempty description; whitespace; an amount of digits and commas with an
optional dot and up to two more digits; whitespace; and one of DR, CR,
DEBIT, CREDIT, matched with IGNORECASE. -/
structure TxnGroups where
  gdate : List Char
  gdesc : List Char
  gamount : List Char
  gdc : List Char
deriving DecidableEq, Repr

/-- Alternatives of a greedy bounded digit run \d|lo,hi|, longest first,
as (capture, rest) pairs. -/
def digitRunOpts (lo hi : Nat) (cs : List Char) : List (List Char × List Char) :=
  let run := (cs.takeWhile isDig).length
  let maxN := min run hi
  ((List.range (maxN + 1)).filterMap (fun i =>
    let n := maxN - i
    if lo ≤ n then some (cs.take n, cs.drop n) else none))

/-- Alternatives of the slash-or-dash separator class. -/
def sepOpts (cs : List Char) : List (List Char × List Char) :=
  match cs with
  | c :: r => if c == '/' || c == '-' then [([c], r)] else []
  | [] => []

/-- Alternatives of greedy \s+, longest first. -/
def wsOpts (cs : List Char) : List (List Char) :=
  let run := (cs.takeWhile isWs).length
  (List.range run).map (fun i => cs.drop (run - i))

/-- Alternatives of the date group (digits,separator,digits,separator,
digits) in backtracking preference order. -/
def dateOpts (cs : List Char) : List (List Char × List Char) :=
  (digitRunOpts 1 2 cs).flatMap (fun (d1, r1) =>
    (sepOpts r1).flatMap (fun (s1, r2) =>
      (digitRunOpts 1 2 r2).flatMap (fun (d2, r3) =>
        (sepOpts r3).flatMap (fun (s2, r4) =>
          (digitRunOpts 2 4 r4).map (fun (d3, r5) =>
            (d1 ++ s1 ++ d2 ++ s2 ++ d3, r5))))))

/-- Character test for the amount class [0-9,]. -/
def isAmtChar (c : Char) : Bool := isDig c || c == ','

/-- Alternatives of the amount group [0-9,]+ \.? \d zero-two in
backtracking preference order (all quantifiers greedy). -/
def amountOpts (cs : List Char) : List (List Char × List Char) :=
  let run := cs.takeWhile isAmtChar
  ((List.range run.length).map (fun i => run.length - i)).flatMap (fun n =>
    let cap := run.take n
    let r1 := cs.drop n
    let dotOpts : List (List Char × List Char) :=
      (if r1.head? = some '.' then [(['.'], r1.tail)] else []) ++ [([], r1)]
    dotOpts.flatMap (fun (dcap, r2) =>
      let dr := r2.takeWhile isDig
      let drun := min dr.length 2
      ((List.range (drun + 1)).map (fun i =>
        (cap ++ dcap ++ dr.take (drun - i), r2.drop (drun - i))))))

/-- Alternatives of the alternation DR|CR|DEBIT|CREDIT under IGNORECASE,
in the pattern's order; the capture is the original matched text. -/
def dcOpts (cs : List Char) : List (List Char × List Char) :=
  (["DR".toList, "CR".toList, "DEBIT".toList, "CREDIT".toList]).filterMap
    (fun alt => if isPreCI alt cs then some (cs.take alt.length, cs.drop alt.length) else none)

/-- Alternatives of the lazy group .+? : one or more non-newline
characters, shortest first. -/
def descOpts (cs : List Char) : List (List Char × List Char) :=
  let run := (cs.takeWhile (fun c => c ≠ '\n')).length
  (List.range run).map (fun i => (cs.take (i + 1), cs.drop (i + 1)))

/-- Attempt to match the whole transaction pattern at a fixed position,
exploring alternatives in the regex engine's backtracking order. -/
def matchTxnAt (cs : List Char) : Option TxnGroups :=
  (dateOpts cs).findSome? (fun (dcap, r1) =>
    (wsOpts r1).findSome? (fun r2 =>
      (descOpts r2).findSome? (fun (desccap, r3) =>
        (wsOpts r3).findSome? (fun r4 =>
          (amountOpts r4).findSome? (fun (acap, r5) =>
            (wsOpts r5).findSome? (fun r6 =>
              (dcOpts r6).head?.map (fun (dccap, _) =>
                ⟨dcap, desccap, acap, dccap⟩)))))))

/-- Leftmost search of the transaction pattern, the semantics of
pattern.search(line). -/
def searchTxn (cs : List Char) : Option TxnGroups :=
  match cs with
  | [] => matchTxnAt []
  | c :: t =>
    match matchTxnAt (c :: t) with
    | some g => some g
    | none => searchTxn t

/-- Record dictionary produced by the parsers in
app/services/parsers/detect_bank_and_parse.py.  The raw_meta bag is kept
as an association list of string pairs; the optional category fields are
only filled by the Excel/CSV variant. -/
structure PRec where
  account_number_masked : List Char
  bank_code : List Char
  txn_date : DateD
  posted_date : Option DateD
  description : List Char
  amount : Dec
  direction : List Char
  balance_after : Option Dec
  channel : List Char
  category : Option (List Char) := none
  subcategory : Option (List Char) := none
  categorization_confidence : Option Dec := none
  raw_meta : List (List Char × List Char) := []
deriving DecidableEq, Repr

/-- Function detect_bank_from_pdf of detect_bank_and_parse.py: bank name
substring tests over the lowercased PDF text. -/
def detect_bank_from_pdf (text : List Char) : List Char :=
  let tl := lowStr text
  if containsSub tl "hdfc".toList then "HDFC".toList
  else if containsSub tl "icici".toList then "ICICI".toList
  else if containsSub tl "state bank".toList || containsSub tl "sbi".toList then "SBI".toList
  else if containsSub tl "axis bank".toList then "AXIS".toList
  else "UNKNOWN".toList

/-- Date-trial chain of parse_pdf_by_bank in detect_bank_and_parse.py:
a nested try/except that attempts %d/%m/%Y and then %d-%m-%Y only. -/
def detectDateChain (s : List Char) : Option DateD :=
  match strptimeD fmtDMYslash s with
  | some d => some d
  | none => strptimeD fmtDMYdash s

/-- Per-line body of the loop in parse_pdf_by_bank
(detect_bank_and_parse.py): regex search, date trial chain (failure skips
the line), comma stripping and float conversion (failure is swallowed by
the enclosing except and skips the line), and DR/DEBIT mapping to DEBIT
with everything else mapping to CREDIT. -/
def pdfLineToRec (bank : List Char) (line : List Char) : Option PRec :=
  match searchTxn line with
  | none => none
  | some g =>
    match detectDateChain g.gdate with
    | none => none
    | some dt =>
      match pyFloat (stripCommas g.gamount) with
      | none => none
      | some amt =>
        let dc := upStr g.gdc
        some { account_number_masked := "XXXX".toList
               bank_code := bank
               txn_date := dt
               posted_date := none
               description := pyStrip g.gdesc
               amount := amt
               direction := if dc == "DR".toList || dc == "DEBIT".toList
                            then "DEBIT".toList else "CREDIT".toList
               balance_after := none
               channel := "PDF".toList
               raw_meta := [("source".toList, "pdf".toList), ("bank".toList, bank)] }

/-- Placeholder record returned by parse_pdf_by_bank when no line matched:
a zero-amount sample transaction dated "now". -/
def samplePdfRec (bank : List Char) (now : DateD) : PRec :=
  { account_number_masked := "XXXX".toList
    bank_code := bank
    txn_date := now
    posted_date := none
    description := "Sample PDF Transaction".toList
    amount := ⟨0, 0⟩
    direction := "DEBIT".toList
    balance_after := none
    channel := "PDF".toList
    raw_meta := [("source".toList, "pdf".toList), ("bank".toList, bank)] }

/-- Function parse_pdf_by_bank of detect_bank_and_parse.py applied to the
extracted text (extract_pdf_text is I/O and is modelled by passing the
text); datetime.now() is modelled by the explicit argument now. -/
def parse_pdf_by_bank (bank : List Char) (text : List Char) (now : DateD) : List PRec :=
  let results := (splitLines text).filterMap (pdfLineToRec bank)
  if results.isEmpty then [samplePdfRec bank now] else results

/-- Canonical row dictionary built by the generic line parsers in
app/routers/etl.py (txn_date, amount, direction, description, ref_no). -/
structure RowG where
  txn_date : DateD
  amount : Dec
  direction : List Char
  description : List Char
  ref_no : Option (List Char)
deriving DecidableEq, Repr

/-- Date-trial chain of parse_pdf_generic_lines in etl.py, translated with
its exact nested try/except structure: %d/%m/%Y, then %d/%m/%y, then
%d-%m-%Y, then %d-%m-%y. -/
def etlDateChain (s : List Char) : Option DateD :=
  match strptimeD fmtDMYslash s with
  | some d => some d
  | none =>
    match strptimeD fmtDMyslash s with
    | some d => some d
    | none =>
      match strptimeD fmtDMYdash s with
      | some d => some d
      | none => strptimeD fmtDMydash s

/-- Specification-side formulation of the same chain: first success over
the ordered format list, as the spec describes it. -/
def specDateChain4 (s : List Char) : Option DateD :=
  tryFormats [fmtDMYslash, fmtDMyslash, fmtDMYdash, fmtDMydash] s

/-- Specification-side first-success chain over the two formats the
detect_bank_and_parse.py site actually tries. -/
def specDateChain2 (s : List Char) : Option DateD :=
  tryFormats [fmtDMYslash, fmtDMYdash] s

/-- Per-line body of parse_pdf_generic_lines in etl.py. -/
def etlLineToRow (line : List Char) : Option RowG :=
  match searchTxn line with
  | none => none
  | some g =>
    match etlDateChain g.gdate with
    | none => none
    | some dt =>
      match pyFloat (stripCommas g.gamount) with
      | none => none
      | some amt =>
        let dc := upStr g.gdc
        some { txn_date := dt
               amount := amt
               direction := if dc == "DR".toList || dc == "DEBIT".toList
                            then "debit".toList else "credit".toList
               description := pyStrip g.gdesc
               ref_no := none }

/-- Function parse_pdf_generic_lines of etl.py. -/
def parse_pdf_generic_lines (text : List Char) : List RowG :=
  (splitLines text).filterMap etlLineToRow

/-- Function parse_pdf_bank_text of etl.py: both branches currently
delegate to the generic line parser. -/
def parse_pdf_bank_text (text : List Char) (bank : List Char) : List RowG :=
  if bank == "HDFC".toList || bank == "ICICI".toList || bank == "SBI".toList then
    parse_pdf_generic_lines text
  else
    parse_pdf_generic_lines text

/-- Outcome of pdfplumber.open on the uploaded bytes: the extracted page
texts on success, or the exception's message and type name on failure.
The I/O boundary is modelled by passing this outcome in. -/
inductive PdfOpen where
  | opened (pages : List (List Char))
  | failed (msg : List Char) (typeName : List Char)

/-- Python truthiness of the optional password argument: None and the
empty string are falsy. -/
def pwTruthy (pw : Option (List Char)) : Bool :=
  match pw with
  | none => false
  | some p => !p.isEmpty

/-- Function parse_pdf_statement of etl.py: error classification of a
failed open (password/encrypted message or PDFPasswordIncorrect type name
gives the two password errors depending on password truthiness, anything
else the generic failure), then per-page line parsing. -/
def parse_pdf_statement (openRes : PdfOpen) (bank_code : List Char)
    (password : Option (List Char)) : Except (List Char) (List RowG) :=
  match openRes with
  | .failed msg typeName =>
    let errorStr := lowStr msg
    if containsSub errorStr "password".toList || containsSub errorStr "encrypted".toList
        || containsSub typeName "PDFPasswordIncorrect".toList then
      if pwTruthy password then
        .error "PDF password is incorrect. Please check the password and try again.".toList
      else
        .error "PDF is password protected. Please provide the password.".toList
    else
      .error ("Failed to open PDF: ".toList ++ msg)
  | .opened pages =>
    let bank := upStr bank_code
    .ok (pages.flatMap (fun page_text =>
      if bank == "HDFC".toList || bank == "ICICI".toList || bank == "SBI".toList then
        parse_pdf_bank_text page_text bank
      else
        parse_pdf_generic_lines page_text))

/-- Constant KEYWORD_MAP of app/services/categorizer_new.py as the ordered
association list (key, category, subcategory), in the dict's insertion
order, which is the iteration order of Python dicts. -/
def KEYWORD_MAP : List (List Char × List Char × List Char) :=
  [("swiggy".toList, "FOOD_AND_DINING".toList, "ONLINE_FOOD".toList),
   ("zomato".toList, "FOOD_AND_DINING".toList, "ONLINE_FOOD".toList),
   ("uber eats".toList, "FOOD_AND_DINING".toList, "ONLINE_FOOD".toList),
   ("dunzo".toList, "FOOD_AND_DINING".toList, "ONLINE_FOOD".toList),
   ("restaurant".toList, "FOOD_AND_DINING".toList, "RESTAURANT".toList),
   ("cafe".toList, "FOOD_AND_DINING".toList, "CAFE".toList),
   ("food".toList, "FOOD_AND_DINING".toList, "RESTAURANT".toList),
   ("netflix".toList, "ENTERTAINMENT".toList, "OTT_SUBSCRIPTION".toList),
   ("hotstar".toList, "ENTERTAINMENT".toList, "OTT_SUBSCRIPTION".toList),
   ("disney+ hotstar".toList, "ENTERTAINMENT".toList, "OTT_SUBSCRIPTION".toList),
   ("prime video".toList, "ENTERTAINMENT".toList, "OTT_SUBSCRIPTION".toList),
   ("amazon prime".toList, "ENTERTAINMENT".toList, "OTT_SUBSCRIPTION".toList),
   ("sonyliv".toList, "ENTERTAINMENT".toList, "OTT_SUBSCRIPTION".toList),
   ("zee5".toList, "ENTERTAINMENT".toList, "OTT_SUBSCRIPTION".toList),
   ("aha".toList, "ENTERTAINMENT".toList, "OTT_SUBSCRIPTION".toList),
   ("spotify".toList, "ENTERTAINMENT".toList, "MUSIC_STREAMING".toList),
   ("youtube premium".toList, "ENTERTAINMENT".toList, "OTT_SUBSCRIPTION".toList),
   ("apple music".toList, "ENTERTAINMENT".toList, "MUSIC_STREAMING".toList),
   ("gaana".toList, "ENTERTAINMENT".toList, "MUSIC_STREAMING".toList),
   ("irctc".toList, "TRAVEL".toList, "TRAIN".toList),
   ("makemytrip".toList, "TRAVEL".toList, "FLIGHT".toList),
   ("goibibo".toList, "TRAVEL".toList, "FLIGHT".toList),
   ("cleartrip".toList, "TRAVEL".toList, "FLIGHT".toList),
   ("ola".toList, "TRAVEL".toList, "CAB".toList),
   ("uber".toList, "TRAVEL".toList, "CAB".toList),
   ("rapido".toList, "TRAVEL".toList, "CAB".toList),
   ("petrol".toList, "TRANSPORT".toList, "FUEL".toList),
   ("diesel".toList, "TRANSPORT".toList, "FUEL".toList),
   ("fuel".toList, "TRANSPORT".toList, "FUEL".toList),
   ("gas".toList, "TRANSPORT".toList, "FUEL".toList),
   ("amazon".toList, "SHOPPING".toList, "ONLINE_SHOPPING".toList),
   ("flipkart".toList, "SHOPPING".toList, "ONLINE_SHOPPING".toList),
   ("myntra".toList, "SHOPPING".toList, "ONLINE_SHOPPING".toList),
   ("ajio".toList, "SHOPPING".toList, "ONLINE_SHOPPING".toList),
   ("meesho".toList, "SHOPPING".toList, "ONLINE_SHOPPING".toList),
   ("bigbasket".toList, "GROCERIES".toList, "ONLINE_GROCERIES".toList),
   ("blinkit".toList, "GROCERIES".toList, "ONLINE_GROCERIES".toList),
   ("zepto".toList, "GROCERIES".toList, "ONLINE_GROCERIES".toList),
   ("instamart".toList, "GROCERIES".toList, "ONLINE_GROCERIES".toList),
   ("dmart".toList, "GROCERIES".toList, "SUPERMARKET".toList),
   ("electricity".toList, "UTILITIES".toList, "ELECTRICITY".toList),
   ("water".toList, "UTILITIES".toList, "WATER".toList),
   ("gas bill".toList, "UTILITIES".toList, "GAS".toList),
   ("broadband".toList, "UTILITIES".toList, "INTERNET".toList),
   ("internet".toList, "UTILITIES".toList, "INTERNET".toList),
   ("mobile".toList, "UTILITIES".toList, "MOBILE".toList),
   ("recharge".toList, "UTILITIES".toList, "MOBILE".toList),
   ("upi".toList, "TRANSFER".toList, "UPI_PAYMENT".toList),
   ("neft".toList, "TRANSFER".toList, "BANK_TRANSFER".toList),
   ("imps".toList, "TRANSFER".toList, "BANK_TRANSFER".toList),
   ("rtgs".toList, "TRANSFER".toList, "BANK_TRANSFER".toList),
   ("salary".toList, "INCOME".toList, "SALARY".toList),
   ("interest".toList, "INCOME".toList, "INTEREST".toList),
   ("dividend".toList, "INCOME".toList, "DIVIDEND".toList),
   ("refund".toList, "INCOME".toList, "REFUND".toList),
   ("emi".toList, "LOAN_EMI".toList, "GENERIC_LOAN".toList),
   ("loan a/c".toList, "LOAN_EMI".toList, "GENERIC_LOAN".toList),
   ("loan account".toList, "LOAN_EMI".toList, "GENERIC_LOAN".toList),
   ("home loan".toList, "LOAN_EMI".toList, "HOME_LOAN".toList),
   ("car loan".toList, "LOAN_EMI".toList, "CAR_LOAN".toList),
   ("personal loan".toList, "LOAN_EMI".toList, "PERSONAL_LOAN".toList),
   ("credit card payment".toList, "DEBT".toList, "CREDIT_CARD_PAYMENT".toList),
   ("credit card".toList, "DEBT".toList, "CREDIT_CARD_PAYMENT".toList),
   ("cc payment".toList, "DEBT".toList, "CREDIT_CARD_PAYMENT".toList),
   ("insurance".toList, "INSURANCE".toList, "GENERAL".toList),
   ("lic".toList, "INSURANCE".toList, "LIFE_INSURANCE".toList),
   ("health insurance".toList, "INSURANCE".toList, "HEALTH_INSURANCE".toList),
   ("mutual fund".toList, "INVESTMENT".toList, "MUTUAL_FUND".toList),
   ("sip".toList, "INVESTMENT".toList, "MUTUAL_FUND".toList),
   ("stocks".toList, "INVESTMENT".toList, "STOCKS".toList),
   ("fd".toList, "INVESTMENT".toList, "FIXED_DEPOSIT".toList)]

/-- Function categorize_transaction of app/services/categorizer_new.py:
the keyword table scanned in insertion order with substring containment,
then the pattern cascade, then the OTHER/UNCATEGORIZED fallback.  The
amount, channel and raw_meta arguments are accepted and ignored exactly
as in the source body. -/
def categorize_transaction (description : List Char) (amount : Dec)
    (channel : Option (List Char) := none)
    (raw_meta : List (List Char × List Char) := []) :
    List Char × List Char × Dec :=
  let desc := lowStr description
  let has := fun (ks : List String) => ks.any (fun k => containsSub desc k.toList)
  match KEYWORD_MAP.find? (fun e => containsSub desc e.1) with
  | some e => (e.2.1, e.2.2, ⟨9, 1⟩)
  | none =>
    if has ["emi", "loan", "installment", "due"] then
      if has ["home"] || has ["housing"] then ("LOAN_EMI".toList, "HOME_LOAN".toList, ⟨85, 2⟩)
      else if has ["car"] || has ["vehicle"] then ("LOAN_EMI".toList, "CAR_LOAN".toList, ⟨85, 2⟩)
      else if has ["personal"] then ("LOAN_EMI".toList, "PERSONAL_LOAN".toList, ⟨85, 2⟩)
      else ("LOAN_EMI".toList, "GENERIC_LOAN".toList, ⟨8, 1⟩)
    else if has ["salary", "sal cr", "payroll"] then ("INCOME".toList, "SALARY".toList, ⟨9, 1⟩)
    else if has ["interest", "int cr", "int credit"] then ("INCOME".toList, "INTEREST".toList, ⟨85, 2⟩)
    else if has ["refund"] || has ["reversal"] then ("INCOME".toList, "REFUND".toList, ⟨8, 1⟩)
    else if has ["electricity", "electric bill", "power bill"] then ("UTILITIES".toList, "ELECTRICITY".toList, ⟨9, 1⟩)
    else if has ["water bill", "water tax"] then ("UTILITIES".toList, "WATER".toList, ⟨9, 1⟩)
    else if has ["broadband", "internet", "wifi"] then ("UTILITIES".toList, "INTERNET".toList, ⟨85, 2⟩)
    else if has ["mobile", "recharge", "prepaid", "postpaid"] then ("UTILITIES".toList, "MOBILE".toList, ⟨85, 2⟩)
    else if has ["petrol", "diesel", "fuel", "gas station"] then ("TRANSPORT".toList, "FUEL".toList, ⟨9, 1⟩)
    else if has ["ola", "uber", "rapido", "cab", "taxi"] then ("TRAVEL".toList, "CAB".toList, ⟨9, 1⟩)
    else if has ["swiggy", "zomato", "uber eats", "food delivery"] then ("FOOD_AND_DINING".toList, "ONLINE_FOOD".toList, ⟨9, 1⟩)
    else if has ["restaurant", "cafe", "dining", "hotel"] then ("FOOD_AND_DINING".toList, "RESTAURANT".toList, ⟨75, 2⟩)
    else if has ["amazon", "flipkart", "myntra", "ajio"] then ("SHOPPING".toList, "ONLINE_SHOPPING".toList, ⟨9, 1⟩)
    else if has ["shopping", "mall", "store"] then ("SHOPPING".toList, "RETAIL".toList, ⟨7, 1⟩)
    else if has ["bigbasket", "blinkit", "zepto", "instamart", "grofers"] then ("GROCERIES".toList, "ONLINE_GROCERIES".toList, ⟨9, 1⟩)
    else if has ["dmart", "reliance fresh", "more", "supermarket"] then ("GROCERIES".toList, "SUPERMARKET".toList, ⟨85, 2⟩)
    else if has ["insurance", "premium", "lic"] then ("INSURANCE".toList, "GENERAL".toList, ⟨8, 1⟩)
    else if has ["mutual fund", "mf", "sip"] then ("INVESTMENT".toList, "MUTUAL_FUND".toList, ⟨85, 2⟩)
    else if has ["stock", "equity", "shares"] then ("INVESTMENT".toList, "STOCKS".toList, ⟨85, 2⟩)
    else if has ["upi", "neft", "imps", "rtgs", "transfer"] then ("TRANSFER".toList, "BANK_TRANSFER".toList, ⟨75, 2⟩)
    else if has ["credit card", "cc payment", "card payment"] then ("DEBT".toList, "CREDIT_CARD_PAYMENT".toList, ⟨9, 1⟩)
    else ("OTHER".toList, "UNCATEGORIZED".toList, ⟨1, 1⟩)

/-- Rests of the input after the currency alternation INR, Rs with an
optional dot, or the rupee sign, case-insensitively, in the pattern's
alternation and greediness order. -/
def currencyOpts (cs : List Char) : List (List Char) :=
  (if isPreCI "inr".toList cs then [cs.drop 3] else []) ++
  (if isPreCI "rs".toList cs then
    (match cs.drop 2 with
     | '.' :: r => [r, cs.drop 2]
     | _ => [cs.drop 2]) else []) ++
  (if isPreCI "₹".toList cs then [cs.drop 1] else [])

/-- Greedy capture of the amount group: one or more digits or commas,
optionally followed by a dot and one or more digits.  Returns the capture
and the rest. -/
def numCapture (cs : List Char) : Option (List Char × List Char) :=
  let run := cs.takeWhile isAmtChar
  if run.isEmpty then none
  else
    let r1 := cs.drop run.length
    match r1 with
    | '.' :: r2 =>
      let fr := r2.takeWhile isDig
      if fr.isEmpty then some (run, r1)
      else some (run ++ '.' :: fr, r2.drop fr.length)
    | _ => some (run, r1)

/-- Pattern 1 of parse_amount (gmail_parser.py) attempted at one position:
currency marker, optional whitespace, amount group. -/
def amtPat1At (cs : List Char) : Option (List Char) :=
  (currencyOpts cs).findSome? (fun rest =>
    (numCapture (rest.dropWhile isWs)).map (fun x => x.1))

/-- Patterns 2 and 3 of parse_amount attempted at one position: one of the
given keywords, one or more colon/whitespace characters, an optional
currency marker, optional whitespace, amount group. -/
def amtPatKwAt (kws : List (List Char)) (cs : List Char) : Option (List Char) :=
  kws.findSome? (fun k =>
    if isPreCI k cs then
      let r1 := cs.drop k.length
      let sep := r1.takeWhile (fun c => c == ':' || isWs c)
      if sep.isEmpty then none
      else
        let r2 := r1.drop sep.length
        ((currencyOpts r2) ++ [r2]).findSome? (fun r3 =>
          (numCapture (r3.dropWhile isWs)).map (fun x => x.1))
    else none)

/-- Word-character test for the regex boundary \b. -/
def wordChar (c : Char) : Bool :=
  isDig c || ('a' ≤ c && c ≤ 'z') || ('A' ≤ c && c ≤ 'Z') || c == '_'

/-- Pattern 4 of parse_amount attempted at one position with the previous
character supplied for the left boundary: a bare number with exactly two
decimal places between word boundaries. -/
def amtPat4At (prev : Option Char) (cs : List Char) : Option (List Char) :=
  match cs with
  | [] => none
  | c :: _ =>
    let prevWord := match prev with | none => false | some p => wordChar p
    if prevWord == wordChar c then none
    else
      let run := cs.takeWhile isAmtChar
      if run.isEmpty then none
      else
        match cs.drop run.length with
        | '.' :: r2 =>
          (match r2 with
           | d1 :: d2 :: r3 =>
             if isDig d1 && isDig d2 &&
                (match r3 with | [] => true | n :: _ => !wordChar n) then
               some (run ++ '.' :: [d1, d2])
             else none
           | _ => none)
        | _ => none

/-- Leftmost search for a position-wise matcher that needs no left
context. -/
def searchPos (f : List Char → Option α) (cs : List Char) : Option α :=
  match f cs with
  | some x => some x
  | none =>
    match cs with
    | [] => none
    | _ :: t => searchPos f t

/-- Leftmost search for pattern 4, threading the previous character for
the left word boundary. -/
def searchP4 (prev : Option Char) (cs : List Char) : Option (List Char) :=
  match amtPat4At prev cs with
  | some x => some x
  | none =>
    match cs with
    | [] => none
    | c :: t => searchP4 (some c) t

/-- One pattern step of parse_amount: on a regex match, strip commas,
convert to float (failure falls through to the next pattern) and accept
only a positive value. -/
def amountFromCap (cap : Option (List Char)) : Option Dec :=
  match cap with
  | none => none
  | some g =>
    match pyFloat (stripCommas g) with
    | none => none
    | some a => if a.isPos then some a else none

/-- Function parse_amount of gmail_parser.py: the four amount patterns
tried in priority order, first positive parsed value wins. -/
def parse_amount (text : List Char) : Option Dec :=
  [searchPos amtPat1At text,
   searchPos (amtPatKwAt ["amount".toList, "paid".toList, "debited".toList, "credited".toList]) text,
   searchPos (amtPatKwAt ["total".toList, "bill".toList]) text,
   searchP4 none text].findSome? amountFromCap

/-- Tokens of the small date-shape regexes used by parse_date. -/
inductive RTok where
  | digits (lo hi : Nat)
  | alpha (n : Nat)
  | cls (chars : List Char)
  | wsP

/-- Alternatives for one date-shape token in greedy preference order. -/
def rtokOpts (t : RTok) (cs : List Char) : List (List Char × List Char) :=
  match t with
  | .digits lo hi => digitRunOpts lo hi cs
  | .alpha n =>
    let run := cs.take n
    if run.length == n && run.all (fun c => ('a' ≤ lowChar c && lowChar c ≤ 'z')) then
      [(run, cs.drop n)]
    else []
  | .cls chars =>
    (match cs with
     | c :: r => if chars.contains c then [([c], r)] else []
     | [] => [])
  | .wsP =>
    let run := (cs.takeWhile isWs).length
    (List.range run).map (fun i => (cs.take (run - i), cs.drop (run - i)))

/-- Backtracking match of a date-shape pattern at one position, returning
the first capture in preference order. -/
def matchRAt (ts : List RTok) (cs : List Char) : Option (List Char) :=
  match ts with
  | [] => some []
  | t :: rest =>
    (rtokOpts t cs).findSome? (fun (cap, r) =>
      (matchRAt rest r).map (fun more => cap ++ more))

/-- Leftmost search of a date-shape pattern, the semantics of re.search
for these patterns. -/
def searchR (ts : List RTok) (cs : List Char) : Option (List Char) :=
  searchPos (matchRAt ts) cs

/-- Function parse_date of gmail_parser.py: five (regex, format list)
pairs tried in order; a regex match whose formats all fail falls through
to the next pair; total failure returns "now" (datetime.now() is modelled
by the explicit argument). -/
def parse_date (text : List Char) (now : DateD) : DateD :=
  let pairs : List (List RTok × List (List FTok)) :=
    [([.digits 1 2, .cls ['/', '-'], .alpha 3, .cls ['/', '-'], .digits 2 4],
      [fmtDbYdash, fmtDbYslash]),
     ([.digits 1 2, .cls ['/'], .digits 1 2, .cls ['/'], .digits 4 4],
      [fmtDMYslash, fmtMDYslash]),
     ([.digits 1 2, .cls ['-'], .digits 1 2, .cls ['-'], .digits 4 4],
      [fmtDMYdash, fmtMDYdash]),
     ([.digits 4 4, .cls ['-'], .digits 1 2, .cls ['-'], .digits 1 2],
      [fmtYMDdash]),
     ([.digits 1 2, .wsP, .alpha 3, .wsP, .digits 4 4],
      [fmtDbYspace, fmtDBfullYspace])]
  match pairs.findSome? (fun (p, fs) =>
    match searchR p text with
    | none => none
    | some ds => tryFormats fs ds) with
  | some d => d
  | none => now

/-- Function is_loan_email of gmail_parser.py. -/
def is_loan_email (subject body : List Char) : Bool :=
  let text := lowStr (subject ++ ' ' :: body)
  anyContains text
    ["emi due".toList, "loan payment due".toList, "loan a/c".toList,
     "loan account".toList, "emi amount".toList, "overdue emi".toList]

/-- Function is_credit_card_email of gmail_parser.py. -/
def is_credit_card_email (subject body : List Char) : Bool :=
  let text := lowStr (subject ++ ' ' :: body)
  anyContains text
    ["credit card statement".toList, "card payment due".toList,
     "minimum amount due".toList, "total amount due".toList]

/-- Function is_ott_email of gmail_parser.py. -/
def is_ott_email (subject body : List Char) : Bool :=
  let text := lowStr (subject ++ ' ' :: body)
  anyContains text
    ["netflix".toList, "hotstar".toList, "disney+ hotstar".toList,
     "prime video".toList, "sonyliv".toList, "zee5".toList, "aha".toList,
     "spotify".toList, "youtube premium".toList]

/-- Function bank_code_from_text of gmail_parser.py. -/
def bank_code_from_text (text : List Char) : List Char :=
  let tl := lowStr text
  if containsSub tl "hdfc".toList then "HDFC".toList
  else if containsSub tl "icici".toList then "ICICI".toList
  else if containsSub tl "axis bank".toList || containsSub tl "axisbank".toList then "AXIS".toList
  else if containsSub tl "state bank of india".toList || containsSub tl "sbi".toList then "SBI".toList
  else "UNKNOWN".toList

/-- Function extract_reference of gmail_parser.py attempted at one
position: Ref, optionally erence, optionally a space and No with an
optional dot, an optional colon, whitespace, and an alphanumeric-or-dash
run; case-insensitive; the capture is the whole original matched text. -/
def refPatAt (cs : List Char) : Option (List Char) :=
  if isPreCI "ref".toList cs then
    let afterRef := cs.drop 3
    let erOpts := (if isPreCI "erence".toList afterRef then [afterRef.drop 6] else []) ++ [afterRef]
    erOpts.findSome? (fun r1 =>
      let noOpts :=
        (if isPreCI " no".toList r1 then
          (match r1.drop 3 with
           | '.' :: r => [r, r1.drop 3]
           | _ => [r1.drop 3]) else []) ++ [r1]
      noOpts.findSome? (fun r2 =>
        let colonOpts := (match r2 with | ':' :: r => [r, r2] | _ => [r2])
        colonOpts.findSome? (fun r3 =>
          let r4 := r3.dropWhile isWs
          let run := r4.takeWhile (fun c => (wordChar c && c ≠ '_') || c == '-')
          if run.isEmpty then none
          else some (cs.take (cs.length - (r4.drop run.length).length)))))
  else none

/-- Leftmost search for extract_reference; returns m.group(1), the whole
matched text. -/
def extract_reference (text : List Char) : Option (List Char) :=
  searchPos refPatAt text

/-- Function extract_due_date of gmail_parser.py: two regexes for the
date after "due date", then %d-%b-%Y and %d/%m/%Y trials; any failure
yields None. -/
def extract_due_date (text : List Char) : Option DateD :=
  let dueAt := fun (shape : List RTok) (cs : List Char) =>
    if isPreCI "due date".toList cs then
      let r1 := (cs.drop 8).dropWhile isWs
      let colonOpts := (match r1 with
        | c :: r => if c == ':' || c == '-' then [r, r1] else [r1]
        | [] => [r1])
      colonOpts.findSome? (fun r2 => matchRAt shape (r2.dropWhile isWs))
    else none
  let shape1 : List RTok := [.digits 1 2, .cls ['/', '-'], .alpha 3, .cls ['/', '-'], .digits 2 4]
  let shape2 : List RTok := [.digits 1 2, .cls ['/'], .digits 1 2, .cls ['/'], .digits 2 4]
  let cap :=
    match searchPos (dueAt shape1) text with
    | some c => some c
    | none => searchPos (dueAt shape2) text
  match cap with
  | none => none
  | some ds =>
    match strptimeD fmtDbYdash ds with
    | some d => some d
    | none => strptimeD fmtDMYslash ds

/-- Gmail message dictionary consumed by
gmail_messages_to_staged_transactions: each field may be absent. -/
structure Msg where
  mid : Option (List Char) := none
  thread_id : Option (List Char) := none
  subject : Option (List Char) := none
  mfrom : Option (List Char) := none
  mto : Option (List Char) := none
  snippet : Option (List Char) := none
  body : Option (List Char) := none
deriving DecidableEq, Repr

/-- Raw_meta bag built for a Gmail staged transaction. -/
structure GMeta where
  source : List Char
  gmail_message_id : Option (List Char)
  gmail_thread_id : Option (List Char)
  gmail_account_id : List Char
  subject : List Char
  mfrom : Option (List Char)
  mto : Option (List Char)
  snippet : Option (List Char)
  mtype : List Char
  reference : Option (List Char)
  due_date : Option DateD := none
  next_renewal_date : Option DateD := none
deriving DecidableEq, Repr

/-- Staged-transaction dictionary produced from a Gmail message. -/
structure GRow where
  account_number_masked : List Char
  bank_code : List Char
  txn_date : Option DateD
  posted_date : Option DateD
  description : List Char
  amount : Dec
  direction : List Char
  balance_after : Option Dec
  channel : List Char
  raw_meta : GMeta
deriving DecidableEq, Repr

/-- Message fields as the source reads them: subject defaults to the
empty string, and body falls back to the snippet (both defaulting to
empty) via Python or-truthiness. -/
def msgSubject (m : Msg) : List Char := m.subject.getD []

/-- Body text used for parsing, with the or-fallback to the snippet. -/
def msgBody (m : Msg) : List Char :=
  let b := m.body.getD []
  if b.isEmpty then m.snippet.getD [] else b

/-- Concatenation f-string subject newline body. -/
def msgCombined (m : Msg) : List Char := msgSubject m ++ '\n' :: msgBody m

/-- Function gmail_messages_to_staged_transactions of gmail_parser.py.
Messages without an extractable amount are skipped; every produced row has
direction DEBIT and channel EMAIL unless the loan / credit-card / OTT
classification rewrites the channel and raw_meta type fields.
datetime.now() inside parse_date is modelled by the explicit argument. -/
def gmail_messages_to_staged_transactions (user_id gmail_account_id batch_id : List Char)
    (messages : List Msg) (now : DateD) : List GRow :=
  messages.filterMap (fun msg =>
    let subject := msgSubject msg
    let body := msgBody msg
    let combined := msgCombined msg
    match parse_amount combined with
    | none => none
    | some amount =>
      let txn_date := parse_date combined now
      let bank_code := bank_code_from_text combined
      let ref := extract_reference combined
      let due_date := extract_due_date combined
      let meta0 : GMeta :=
        { source := "gmail".toList
          gmail_message_id := msg.mid
          gmail_thread_id := msg.thread_id
          gmail_account_id := gmail_account_id
          subject := subject
          mfrom := msg.mfrom
          mto := msg.mto
          snippet := msg.snippet
          mtype := "GENERIC".toList
          reference := ref }
      let direction := "DEBIT".toList
      let channel0 := "EMAIL".toList
      let (raw_meta, channel) :=
        if is_loan_email subject body then
          ({ meta0 with mtype := "LOAN_EMI".toList, due_date := due_date }, "LOAN_EMI".toList)
        else if is_credit_card_email subject body then
          ({ meta0 with mtype := "CREDIT_CARD_BILL".toList, due_date := due_date }, "CREDIT_CARD".toList)
        else if is_ott_email subject body then
          ({ meta0 with mtype := "OTT_SUBSCRIPTION".toList, next_renewal_date := due_date }, "OTT_SUBSCRIPTION".toList)
        else (meta0, channel0)
      some { account_number_masked := "XXXX".toList
             bank_code := bank_code
             txn_date := some txn_date
             posted_date := none
             description := if subject.isEmpty then body.take 120 else subject
             amount := amount
             direction := direction
             balance_after := none
             channel := channel
             raw_meta := raw_meta })

/-- Row of enrichment.txn_categorization_rule as read by
apply_categorization_rules in etl.py.  The regex_search field stands for
the compiled regex search of match_value over the haystack with
IGNORECASE; a rule whose pattern fails to compile behaves as the constant
false function, exactly as the source treats re.error as a non-match. -/
structure CRule where
  rule_id : Nat
  bank_code : Option (List Char)
  match_field : List Char
  match_type : List Char
  match_value : Option (List Char)
  direction : Option (List Char)
  primary_category : List Char
  sub_category : List Char
  priority : Int
  is_active : Bool
  regex_search : List Char → Bool

/-- Dictionary lookup r.get(field_name) for the canonical row dictionaries
flowing into apply_categorization_rules: only the string-valued keys can
produce a usable haystack; any other name yields None. -/
def rowFieldGet (r : RowG) (name : List Char) : Option (List Char) :=
  if name == "description".toList then some r.description
  else if name == "ref_no".toList then r.ref_no
  else if name == "direction".toList then some r.direction
  else none

/-- Per-rule test of apply_categorization_rules (etl.py): the direction
filter skip (Python truthiness: an empty or NULL direction does not
filter), the empty-haystack skip, and the contains / startswith /
case-insensitive regex match on the lowercased haystack; an unknown
match_type never matches. -/
def ruleMatches (rule : CRule) (r : RowG) : Bool :=
  let dirSkip :=
    match rule.direction with
    | some d => !d.isEmpty && d ≠ r.direction
    | none => false
  if dirSkip then false
  else
    let haystack := lowStr ((rowFieldGet r rule.match_field).getD [])
    if haystack.isEmpty then false
    else
      let pat := lowStr (rule.match_value.getD [])
      if rule.match_type == "contains".toList then containsSub haystack pat
      else if rule.match_type == "startswith".toList then isPre pat haystack
      else if rule.match_type == "regex".toList then rule.regex_search haystack
      else false

/-- SQL query of apply_categorization_rules: active rules whose bank_code
matches or is NULL, ordered by ascending priority. -/
def fetchActiveRules (tbl : List CRule) (bank_code : List Char) : List CRule :=
  List.insertionSort (fun a b => a.priority ≤ b.priority)
    (tbl.filter (fun r => r.is_active && (r.bank_code == some bank_code || r.bank_code == none)))

/-- Function apply_categorization_rules of etl.py: first matching rule in
the fetched order assigns (primary_category, sub_category); no match
falls back to uncategorized.  The rule table is passed in place of the
database session. -/
def apply_categorization_rules (tbl : List CRule) (rows : List RowG) (bank_code : List Char) :
    List (RowG × List Char × List Char) :=
  if rows.isEmpty then []
  else
    let rules := fetchActiveRules tbl bank_code
    rows.map (fun r =>
      match rules.find? (fun rule => ruleMatches rule r) with
      | some rule => (r, rule.primary_category, rule.sub_category)
      | none => (r, "uncategorized".toList, "uncategorized".toList))

/-- Row of the etl_batch table (app/models/etl_models.py), with the
model's column defaults. -/
structure ETLBatch where
  batch_id : List Char
  user_id : List Char
  source : Option (List Char) := none
  status : List Char := "pending".toList
  original_filename : Option (List Char) := none
  total_records : Nat := 0
  valid_records : Nat := 0
  invalid_records : Nat := 0
  processed_records : Nat := 0
  failed_records : Nat := 0
  error_message : Option (List Char) := none
deriving DecidableEq, Repr

/-- Row of the staged_transaction table as built by parse_file_task
(the generated uuid primary key is omitted from the model). -/
structure StagedTransaction where
  batch_id : List Char
  user_id : List Char
  account_number_masked : Option (List Char)
  bank_code : Option (List Char)
  txn_date : Option DateD
  posted_date : Option DateD
  description : Option (List Char)
  amount : Option Dec
  direction : Option (List Char)
  balance_after : Option Dec
  channel : Option (List Char)
  raw_meta : List (List Char × List Char)
deriving DecidableEq, Repr

/-- Staging loop body of parse_file_task (app/tasks/etl_tasks.py): each
parser record dictionary is copied field-for-field into a
StagedTransaction row with no validation. -/
def stageRecord (batch_id user_id : List Char) (r : PRec) : StagedTransaction :=
  { batch_id := batch_id
    user_id := user_id
    account_number_masked := some r.account_number_masked
    bank_code := some r.bank_code
    txn_date := some r.txn_date
    posted_date := r.posted_date
    description := some r.description
    amount := some r.amount
    direction := some r.direction
    balance_after := r.balance_after
    channel := some r.channel
    raw_meta := r.raw_meta }

/-- Success path of parse_file_task (app/tasks/etl_tasks.py): set
total_records and valid_records to the parser-output count, set the
status to parsed, and stage every record. -/
def parse_file_task_success (batch : ETLBatch) (records : List PRec) :
    ETLBatch × List StagedTransaction :=
  ({ batch with
      total_records := records.length
      valid_records := records.length
      status := "parsed".toList },
   records.map (stageRecord batch.batch_id batch.user_id))

/-- Status-writing pipeline steps of app/tasks/etl_tasks.py, plus the
load step.  Each constructor is one observable outcome of running a task:
parse_file_task sets parsed on success and failed on error;
categorize_transactions_task sets categorized when the batch has staged
rows, leaves the status alone when it has none, and sets failed on
error. -/
inductive PipeStep where
  | parseOk
  | parseFail
  | catOk
  | catOkEmpty
  | catFail
deriving DecidableEq, Repr

/-- Status written by one pipeline step given the current status; the
writes are unconditional in the source (no check of the current value). -/
def applyPipeStep (st : List Char) (p : PipeStep) : List Char :=
  match p with
  | .parseOk => "parsed".toList
  | .parseFail => "failed".toList
  | .catOk => "categorized".toList
  | .catOkEmpty => st
  | .catFail => "failed".toList

/-- Status trace of a run: the initial status followed by the status
after each step. -/
def statusTrace (init : List Char) (steps : List PipeStep) : List (List Char) :=
  init :: (match steps with
  | [] => []
  | p :: rest => statusTrace (applyPipeStep init p) rest)

/-- Forward order of the spec's batch state machine
pending, parsed, categorized, loaded. -/
def statusRank (st : List Char) : Option Nat :=
  if st == "pending".toList then some 0
  else if st == "parsed".toList then some 1
  else if st == "categorized".toList then some 2
  else if st == "loaded".toList then some 3
  else none

/-- Row of spendsense.txn_staging as consumed by load_staging_for_user. -/
structure TxnStaging where
  user_id : List Char
  upload_id : Option (List Char)
  raw_txn_id : Option (List Char)
  txn_date : DateD
  description_raw : Option (List Char)
  amount : Dec
  direction : List Char
  currency : Option (List Char)
  merchant_raw : Option (List Char)
  account_ref : Option (List Char)
  parsed_ok : Bool
deriving DecidableEq, Repr

/-- Content-fingerprint data.  Modelled from the spec: the SQL function
spendsense.fn_txn_fact_fp is not part of the repository source; per the
spec it is a content fingerprint over (user_id, txn_date, amount,
direction, description, merchant_normalized, account_ref), modelled here
as the injective tuple of those arguments with the amount in value-normal
form. -/
structure FPData where
  user_id : List Char
  txn_date : DateD
  amount : Dec
  direction : List Char
  description : List Char
  merchant : List Char
  account_ref : List Char
deriving DecidableEq, Repr

/-- Fingerprint computed for one staging row, with the or-empty defaults
the loader passes for description, merchant and account_ref. -/
def fnTxnFactFp (s : TxnStaging) (merchant_norm : List Char) : FPData :=
  { user_id := s.user_id
    txn_date := s.txn_date
    amount := s.amount.norm
    direction := s.direction
    description := s.description_raw.getD []
    merchant := merchant_norm
    account_ref := s.account_ref.getD [] }

/-- Row of spendsense.txn_fact as inserted by load_staging_for_user
(audit columns set by the follow-up UPDATE statements are inlined; the
1:1 enrichment row does not affect fact insertion or deduplication and is
not modelled). -/
structure TxnFact where
  user_id : List Char
  upload_id : Option (List Char)
  source_type : List Char
  account_ref : Option (List Char)
  txn_external_id : Option (List Char)
  txn_date : DateD
  description : Option (List Char)
  amount : Dec
  direction : List Char
  currency : List Char
  merchant_name_norm : Option (List Char)
  dedupe_fp : FPData
deriving DecidableEq, Repr

/-- Fact row built from a staging row in load_staging_for_user, with the
currency or-INR default and the merchant or-None coercion. -/
def mkTxnFact (s : TxnStaging) (merchant_norm : Option (List Char)) (fp : FPData) : TxnFact :=
  { user_id := s.user_id
    upload_id := s.upload_id
    source_type := "file".toList
    account_ref := s.account_ref
    txn_external_id := s.raw_txn_id
    txn_date := s.txn_date
    description := s.description_raw
    amount := s.amount
    direction := s.direction
    currency := (match s.currency with
                 | some c => if c.isEmpty then "INR".toList else c
                 | none => "INR".toList)
    merchant_name_norm := (match merchant_norm with
                           | some m => if m.isEmpty then none else some m
                           | none => none)
    dedupe_fp := fp }

/-- Merchant extraction and categorization outcome used by the loader:
merchant_name_norm, category_code, subcategory_code.  The helper
_extract_and_categorize depends on merchant_rules and services that are
not part of the repository source, so the loader is parameterised over
it. -/
def ExtractFn : Type := TxnStaging → Option (List Char) × Option (List Char) × Option (List Char)

/-- Per-row body of the loader loop in load_staging_for_user (etl.py):
compute the fingerprint, skip the row when a fact with that fingerprint
already exists (the within-transaction SELECT sees earlier inserts of the
same run), otherwise insert the fact and count it.  The savepoint only
matters under concurrent writers, which the sequential model has none
of. -/
def loadStep (extract : ExtractFn) (st : List TxnFact × Nat) (s : TxnStaging) :
    List TxnFact × Nat :=
  let mn := (extract s).1
  let fp := fnTxnFactFp s (mn.getD [])
  if st.1.any (fun f => f.dedupe_fp == fp) then st
  else (st.1 ++ [mkTxnFact s mn fp], st.2 + 1)

/-- Function load_staging_for_user of etl.py restricted to its fact-table
effect: fold the loader step over the user's parsed_ok staging rows,
starting from the existing facts; returns the final fact table and the
inserted count. -/
def load_staging_for_user (extract : ExtractFn) (facts : List TxnFact)
    (staging : List TxnStaging) : List TxnFact × Nat :=
  (staging.filter (fun s => s.parsed_ok)).foldl (loadStep extract) (facts, 0)

/-- Value of one spreadsheet cell as pandas hands it to the parsers:
a numeric cell, a missing value (NaN), a string cell, or a cell already
typed as a date/Timestamp. -/
inductive Cell where
  | num (d : Dec)
  | nan
  | cstr (s : List Char)
  | cdate (d : DateD)
deriving DecidableEq, Repr

/-- Test pd.isna. -/
def cellIsNa : Cell → Bool
  | .nan => true
  | _ => false

/-- Python float(cell): numeric cells convert directly, string cells via
float() (ValueError as none), dates raise TypeError (none); NaN cells are
only passed to float() on paths that have already checked pd.notna,
except where modelled explicitly. -/
def cellFloat : Cell → Option Dec
  | .num d => some d
  | .cstr s => pyFloat (pyStrip s)
  | _ => none

/-- Decimal renderer backing pyStrOfCell for numeric cells (Python str of
a float prints at least one fractional digit). -/
def decRender (d : Dec) : List Char :=
  let digits := Nat.toDigits 10 d.man.natAbs
  let digits := if d.exp == 0 then digits ++ ['.', '0']
    else
      let padded := (List.replicate (d.exp + 1 - digits.length) '0') ++ digits
      padded.take (padded.length - d.exp) ++ '.' :: padded.drop (padded.length - d.exp)
  if d.man < 0 then '-' :: digits else digits

/-- Python str(cell): str cells unchanged, NaN renders as nan, numbers via
the decimal renderer, dates via an ISO-like rendering (no claim depends
on the rendering of non-string description cells). -/
def pyStrOfCell : Cell → List Char
  | .cstr s => s
  | .nan => "nan".toList
  | .num d => decRender d
  | .cdate d => Nat.toDigits 10 d.year ++ '-' :: Nat.toDigits 10 d.month ++ '-' :: Nat.toDigits 10 d.day

/-- DataFrame model: column labels plus rows of cells aligned with the
labels. -/
structure DFrame where
  cols : List (List Char)
  rows : List (List (List Char × Cell)) := []
deriving Repr

/-- Canonical record built per row by normalize_excel_df (etl.py), with
its dict initialiser. -/
structure NRec where
  txn_date : Option DateD := none
  amount : Option Dec := none
  direction : Option (List Char) := none
  description : Option (List Char) := some []
  ref_no : Option (List Char) := none
deriving DecidableEq, Repr

/-- Exact per-bank column mappings of normalize_excel_df (etl.py). -/
def bankMapping (bank_key : List Char) : List (List Char × List Char) :=
  if bank_key == "HDFC".toList then
    [("date".toList, "txn_date".toList), ("value date".toList, "txn_date".toList),
     ("value_date".toList, "txn_date".toList), ("withdrawal amt.".toList, "debit".toList),
     ("withdrawal_amt".toList, "debit".toList), ("deposit amt.".toList, "credit".toList),
     ("deposit_amt".toList, "credit".toList), ("narration".toList, "description".toList),
     ("chq/ref number".toList, "ref_no".toList), ("chq_ref_number".toList, "ref_no".toList),
     ("ref".toList, "ref_no".toList)]
  else if bank_key == "ICICI".toList then
    [("transaction date".toList, "txn_date".toList), ("transaction_date".toList, "txn_date".toList),
     ("date".toList, "txn_date".toList), ("withdrawal amount (inr)".toList, "debit".toList),
     ("withdrawal_amount".toList, "debit".toList), ("deposit amount (inr)".toList, "credit".toList),
     ("deposit_amount".toList, "credit".toList), ("transaction remarks".toList, "description".toList),
     ("transaction_remarks".toList, "description".toList), ("remarks".toList, "description".toList),
     ("cheque number".toList, "ref_no".toList), ("cheque_number".toList, "ref_no".toList)]
  else if bank_key == "SBI".toList then
    [("date".toList, "txn_date".toList), ("value date".toList, "txn_date".toList),
     ("withdrawal".toList, "debit".toList), ("deposit".toList, "credit".toList),
     ("description".toList, "description".toList), ("narration".toList, "description".toList),
     ("ref no".toList, "ref_no".toList), ("ref_no".toList, "ref_no".toList)]
  else
    [("date".toList, "txn_date".toList), ("transaction_date".toList, "txn_date".toList),
     ("amount".toList, "amount".toList), ("type".toList, "direction".toList),
     ("transaction_type".toList, "direction".toList), ("description".toList, "description".toList),
     ("narration".toList, "description".toList), ("ref".toList, "ref_no".toList),
     ("reference".toList, "ref_no".toList), ("reference_id".toList, "ref_no".toList)]

/-- Fuzzy column mapping of normalize_excel_df for the typical bank
header patterns, tried when the exact mapping misses. -/
def fuzzyKey (bank_key col_norm : List Char) : Option (List Char) :=
  let hasK := fun (k : String) => containsSub col_norm k.toList
  if bank_key == "HDFC".toList then
    if hasK "date" && (hasK "value" || col_norm == "date".toList) then some "txn_date".toList
    else if hasK "narration" || hasK "description" || hasK "particulars" then some "description".toList
    else if hasK "withdrawal" || (hasK "debit" && hasK "amount") then some "debit".toList
    else if hasK "deposit" || (hasK "credit" && hasK "amount") then some "credit".toList
    else if hasK "chq" || hasK "ref" then some "ref_no".toList
    else none
  else if bank_key == "ICICI".toList then
    if hasK "transaction date" || col_norm == "date".toList then some "txn_date".toList
    else if hasK "remarks" || hasK "description" then some "description".toList
    else if hasK "withdrawal" || (hasK "debit" && hasK "amount") then some "debit".toList
    else if hasK "deposit" || (hasK "credit" && hasK "amount") then some "credit".toList
    else if hasK "cheque" || hasK "ref" then some "ref_no".toList
    else none
  else if bank_key == "SBI".toList then
    if hasK "date" then some "txn_date".toList
    else if hasK "narration" || hasK "description" then some "description".toList
    else if hasK "withdrawal" || (hasK "debit" && hasK "amount") then some "debit".toList
    else if hasK "deposit" || (hasK "credit" && hasK "amount") then some "credit".toList
    else if hasK "ref" then some "ref_no".toList
    else none
  else none

/-- Column-to-canonical key resolution: exact mapping first, then the
bank-specific fuzzy rules. -/
def colKey (bank_key col_norm : List Char) : Option (List Char) :=
  match (bankMapping bank_key).lookup col_norm with
  | some k => some k
  | none => fuzzyKey bank_key col_norm

/-- Per-cell update of the canonical record in normalize_excel_df's row
loop.  A float() conversion failure on a mapped debit / credit / amount
cell propagates as an exception (there is no per-row try in this
function), modelled as Except.error. -/
def applyKeyVal (bank_key : List Char) (toDT : Cell → Option DateD) (rec : NRec)
    (col : List Char) (val : Cell) : Except Unit NRec :=
  let col_norm := lowStr (pyStrip col)
  match colKey bank_key col_norm with
  | none => .ok rec
  | some k =>
    if k == "txn_date".toList then
      if cellIsNa val then .ok rec
      else
        match val with
        | .cdate d => .ok { rec with txn_date := some d }
        | _ =>
          match toDT val with
          | some d => .ok { rec with txn_date := some d }
          | none => .ok rec
    else if k == "debit".toList || k == "credit".toList then
      if cellIsNa val then .ok rec
      else
        match cellFloat val with
        | none => .error ()
        | some q =>
          if q.isZero then .ok rec
          else
            .ok { rec with
                  amount := some q
                  direction := some (if k == "debit".toList then "debit".toList else "credit".toList) }
    else if k == "amount".toList then
      if cellIsNa val then .ok rec
      else
        match cellFloat val with
        | none => .error ()
        | some q =>
          if q.isZero then .ok rec
          else .ok { rec with amount := some q.dabs }
    else
      let newVal := if cellIsNa val then none else some (pyStrip (pyStrOfCell val))
      if k == "description".toList then .ok { rec with description := newVal }
      else if k == "ref_no".toList then .ok { rec with ref_no := newVal }
      else if k == "direction".toList then .ok { rec with direction := newVal }
      else .ok rec

/-- Cell lookup row.get(name) over the row's (column, value) pairs. -/
def rowLookup (cells : List (List Char × Cell)) (name : List Char) : Option Cell :=
  (cells.find? (fun p => p.1 == name)).map (fun p => p.2)

/-- Python truthiness of the raw amount cell in the GENERIC direction
inference (None and 0 and the empty string are falsy; NaN is truthy). -/
def cellTruthy : Option Cell → Bool
  | none => false
  | some (.num q) => !q.isZero
  | some .nan => true
  | some (.cstr s) => !s.isEmpty
  | some (.cdate _) => true

/-- GENERIC-bank direction inference of normalize_excel_df: derive the
direction from a type column prefix, else from the sign of the raw amount
cell (NaN compares not-less-than zero and falls to credit). -/
def genericDirInfer (bank_key : List Char) (cells : List (List Char × Cell))
    (rec : NRec) : Except Unit NRec :=
  if bank_key == "GENERIC".toList && rec.direction == none then
    let type_val :=
      match rowLookup cells "type".toList with
      | some v => lowStr (pyStrOfCell v)
      | none => []
    if isPre "d".toList type_val || isPre "debit".toList type_val then
      .ok { rec with direction := some "debit".toList }
    else if isPre "c".toList type_val || isPre "credit".toList type_val then
      .ok { rec with direction := some "credit".toList }
    else if (match rec.amount with | some a => !a.isZero | none => false) then
      let orig := rowLookup cells "amount".toList
      if cellTruthy orig then
        match orig with
        | some (.num q) =>
          if q.isNeg then .ok { rec with direction := some "debit".toList, amount := some q.dabs }
          else .ok { rec with direction := some "credit".toList }
        | some .nan => .ok { rec with direction := some "credit".toList }
        | some (.cstr s) =>
          match pyFloat (pyStrip s) with
          | none => .error ()
          | some q =>
            if q.isNeg then .ok { rec with direction := some "debit".toList, amount := some q.dabs }
            else .ok { rec with direction := some "credit".toList }
        | _ => .error ()
      else .ok { rec with direction := some "credit".toList }
    else .ok rec
  else .ok rec

/-- Final keep test of normalize_excel_df's row loop: a row lacking a
resolved txn_date or amount, or with a falsy direction, is skipped. -/
def nrecKeep (rec : NRec) : Bool :=
  rec.txn_date.isSome && rec.amount.isSome &&
    (match rec.direction with | some d => !d.isEmpty | none => false)

/-- One row of normalize_excel_df: the column fold, then the GENERIC
inference, then the keep test. -/
def normalizeExcelRow (bank_key : List Char) (toDT : Cell → Option DateD)
    (cells : List (List Char × Cell)) : Except Unit (Option NRec) := do
  let rec0 : NRec := {}
  let rec1 ← cells.foldlM (fun rec p => applyKeyVal bank_key toDT rec p.1 p.2) rec0
  let rec2 ← genericDirInfer bank_key cells rec1
  pure (if nrecKeep rec2 then some rec2 else none)

/-- Bank override of normalize_excel_df from the sheet's first cell when
the caller passed GENERIC. -/
def autoBankFromFirstCell (bank_code : List Char) (first_cell : List Char) : List Char :=
  if upStr bank_code == "GENERIC".toList then
    if containsSub first_cell "hdfc".toList && containsSub first_cell "bank".toList then "HDFC".toList
    else if containsSub first_cell "icici".toList && containsSub first_cell "bank".toList then "ICICI".toList
    else if containsSub first_cell "state bank of india".toList || containsSub first_cell "sbi".toList then "SBI".toList
    else bank_code
  else bank_code

/-- Sanity check of normalize_excel_df: a date-mappable and a
description-mappable column must both exist, via exact names or fuzzy
keyword tests; failure raises ValueError. -/
def nedSanity (bank_key : List Char) (df_cols : List (List Char)) : Bool :=
  let date_cols := ((bankMapping bank_key).filter (fun p => p.2 == "txn_date".toList)).map (fun p => p.1)
  let desc_cols := ((bankMapping bank_key).filter (fun p => p.2 == "description".toList)).map (fun p => p.1)
  let has_date :=
    df_cols.any (fun col => containsSub col "date".toList &&
      (containsSub col "value".toList || col == "date".toList)) ||
    date_cols.any (fun c => df_cols.contains c)
  let has_desc :=
    df_cols.any (fun col =>
      containsSub col "narration".toList || containsSub col "description".toList ||
      containsSub col "particulars".toList || containsSub col "remarks".toList) ||
    desc_cols.any (fun c => df_cols.contains c)
  has_date && has_desc

/-- Function normalize_excel_df of etl.py: rename columns to stripped
lowercase, auto-detect the bank from the first cell for GENERIC, pick the
bank mapping (unknown banks fall back to GENERIC), run the sanity check
(ValueError on failure), and map each row; pandas.to_datetime is outside
the repository and is passed in as toDT. -/
def normalize_excel_df (toDT : Cell → Option DateD) (df : DFrame) (bank_code : List Char) :
    Except Unit (List NRec) := do
  let rows := df.rows.map (fun r => r.map (fun p => (lowStr (pyStrip p.1), p.2)))
  let cols := df.cols.map (fun c => lowStr (pyStrip c))
  let first_cell :=
    match rows with
    | (p :: _) :: _ => lowStr (pyStrOfCell p.2)
    | _ => []
  let bank_code2 := autoBankFromFirstCell bank_code first_cell
  let bank_key :=
    if upStr bank_code2 == "HDFC".toList || upStr bank_code2 == "ICICI".toList ||
       upStr bank_code2 == "SBI".toList || upStr bank_code2 == "GENERIC".toList then
      upStr bank_code2
    else "GENERIC".toList
  if !nedSanity bank_key cols then throw ()
  else
    rows.foldlM (fun acc cells => do
      match (← normalizeExcelRow bank_key toDT cells) with
      | some rec => pure (acc ++ [rec])
      | none => pure acc) []

/-- Detected columns of parse_excel_csv_by_bank
(detect_bank_and_parse.py). -/
structure DetCols where
  date_col : Option (List Char) := none
  desc_col : Option (List Char) := none
  amount_col : Option (List Char) := none
  debit_col : Option (List Char) := none
  credit_col : Option (List Char) := none
  balance_col : Option (List Char) := none
deriving DecidableEq, Repr

/-- Column-detection loop of parse_excel_csv_by_bank: date and
description keep the first match, the withdrawal/deposit tests overwrite
on every match, the bare amount test keeps the first match, as in the
source's if/elif chain. -/
def detectCols (cols : List (List Char)) : DetCols :=
  cols.foldl (fun dc col =>
    let cl := lowStr col
    let hasK := fun (k : String) => containsSub cl k.toList
    let dc :=
      if dc.date_col == none &&
         (hasK "date" || hasK "txn date" || hasK "transaction date" || hasK "value date") then
        { dc with date_col := some col }
      else dc
    let dc :=
      if dc.desc_col == none &&
         (hasK "desc" || hasK "narration" || hasK "particulars" || hasK "details" ||
          hasK "remarks" || hasK "transaction") then
        { dc with desc_col := some col }
      else dc
    let dc :=
      if hasK "withdrawal" || (hasK "debit" && hasK "amount") then
        { dc with debit_col := some col }
      else if hasK "deposit" || (hasK "credit" && hasK "amount") then
        { dc with credit_col := some col }
      else if hasK "amount" && dc.amount_col == none then
        { dc with amount_col := some col }
      else dc
    let dc :=
      if hasK "balance" && dc.balance_col == none then
        { dc with balance_col := some col }
      else dc
    dc) {}

/-- Date-format trial loop of parse_excel_csv_by_bank for string date
cells. -/
def excelDateFormats : List (List FTok) :=
  [fmtDMYslash, fmtYMDdash, fmtDMYdash, fmtDbYdash, fmtDMyslash]

/-- Amount/direction resolution of one row in parse_excel_csv_by_bank:
separate debit/credit columns take the positive cell with the direction
fixed accordingly (absolute value applied under the positivity guard), a
single amount column infers the direction from the sign before taking the
absolute value; a missing resolution skips the row, and a float()
exception is caught by the per-row handler (none). -/
def excelAmountDir (dc : DetCols) (cells : List (List Char × Cell)) : Option (Dec × List Char) :=
  match dc.debit_col, dc.credit_col with
  | some dcol, some ccol =>
    let debit_val := (rowLookup cells dcol).getD (.num ⟨0, 0⟩)
    let credit_val := (rowLookup cells ccol).getD (.num ⟨0, 0⟩)
    let tryCredit : Option (Dec × List Char) :=
      if !cellIsNa credit_val then
        match cellFloat credit_val with
        | none => none
        | some q => if q.isPos then some (q.dabs, "CREDIT".toList) else none
      else none
    if !cellIsNa debit_val then
      match cellFloat debit_val with
      | none => none
      | some q => if q.isPos then some (q.dabs, "DEBIT".toList) else tryCredit
    else tryCredit
  | _, _ =>
    match dc.amount_col with
    | some acol =>
      let amount_val := (rowLookup cells acol).getD (.num ⟨0, 0⟩)
      if !cellIsNa amount_val then
        match cellFloat amount_val with
        | none => none
        | some q =>
          some (q.dabs, if q.isNeg then "DEBIT".toList else "CREDIT".toList)
      else none
    | none => none

/-- Per-row body of parse_excel_csv_by_bank: date resolution (string
cells through the five-format trial loop, typed date cells directly),
description requiredness, amount/direction resolution, the zero-amount
skip, the best-effort balance, and auto-categorization; any exception in
the row is caught and skips the row. -/
def excelRowToRec (bank : List Char) (dc : DetCols) (cells : List (List Char × Cell))
    (idx : Nat) : Option PRec :=
  let txn_date : Option DateD :=
    match dc.date_col with
    | none => none
    | some dcol =>
      match rowLookup cells dcol with
      | none => none
      | some v =>
        if cellIsNa v then none
        else
          match v with
          | .cstr s => tryFormats excelDateFormats (pyStrip s)
          | .cdate d => some d
          | _ => none
  match txn_date with
  | none => none
  | some dt =>
    let description :=
      match dc.desc_col with
      | some col => pyStrip (pyStrOfCell ((rowLookup cells col).getD (.cstr [])))
      | none => []
    if description.isEmpty || lowStr description == "nan".toList ||
       lowStr description == "none".toList then none
    else
      match excelAmountDir dc cells with
      | none => none
      | some (amount, direction) =>
        if amount.isZero then none
        else
          let balance_after : Option Dec :=
            match dc.balance_col with
            | some col =>
              match rowLookup cells col with
              | some v => if cellIsNa v then none else cellFloat v
              | none => none
            | none => none
          let cat := categorize_transaction description amount (some "EXCEL".toList)
          some { account_number_masked := "XXXX".toList
                 bank_code := bank
                 txn_date := dt
                 posted_date := none
                 description := description
                 amount := amount
                 direction := direction
                 balance_after := balance_after
                 channel := "EXCEL".toList
                 category := some cat.1
                 subcategory := some cat.2.1
                 categorization_confidence := some cat.2.2
                 raw_meta := [("source".toList, "excel_csv".toList), ("bank".toList, bank),
                              ("row_index".toList, Nat.toDigits 10 idx)] }

/-- Function parse_excel_csv_by_bank of detect_bank_and_parse.py: clean
the column labels, detect the columns, and map each row, skipping rows
that fail. -/
def parse_excel_csv_by_bank (bank : List Char) (df : DFrame) : List PRec :=
  let cols := df.cols.map pyStrip
  let rows := df.rows.map (fun r => r.map (fun p => (pyStrip p.1, p.2)))
  let dc := detectCols cols
  (rows.enum).filterMap (fun (idx, cells) => excelRowToRec bank dc cells idx)

/-- Function detect_bank_from_df of detect_bank_and_parse.py: bank-name
substring tests over the space-joined lowercased column labels. -/
def detect_bank_from_df (df : DFrame) : List Char :=
  let headers := lowStr (List.intercalate [' '] df.cols)
  if containsSub headers "hdfc".toList then "HDFC".toList
  else if containsSub headers "icici".toList then "ICICI".toList
  else if containsSub headers "sbi".toList || containsSub headers "state bank".toList then "SBI".toList
  else if containsSub headers "axis".toList then "AXIS".toList
  else "UNKNOWN".toList

/-- Inversion for findSome?: a produced value comes from some list
element. -/
theorem findSome?_eq_some_exists {α β : Type} {f : α → Option β} {l : List α} {b : β}
    (h : l.findSome? f = some b) : ∃ a ∈ l, f a = some b := by
  induction l with
  | nil => simp [List.findSome?] at h
  | cons x xs ih =>
    rw [List.findSome?_cons] at h
    cases hx : f x with
    | some v =>
      rw [hx] at h
      exact ⟨x, List.mem_cons_self x xs, by simpa [hx] using h⟩
    | none =>
      rw [hx] at h
      obtain ⟨a, ha, hfa⟩ := ih h
      exact ⟨a, List.mem_cons_of_mem x ha, hfa⟩

/-- Characters of any amount-group capture are digits, commas or the
dot, since the capture is assembled from takeWhile prefixes of those
classes. -/
theorem amountOpts_chars {cs cap r : List Char}
    (h : (cap, r) ∈ amountOpts cs) : ∀ c ∈ cap, isAmtChar c = true ∨ c = '.' := by
  unfold amountOpts at h
  simp only [List.mem_flatMap, List.mem_map, List.mem_range, List.mem_append] at h
  obtain ⟨n, ⟨i0, hi0, hn⟩, dpair, hdp, j, hj, heq⟩ := h
  have hcap : cap = (cs.takeWhile isAmtChar).take n ++ dpair.1 ++
      ((dpair.2.takeWhile isDig).take (min (dpair.2.takeWhile isDig).length 2 - j)) := by
    have := congrArg Prod.fst heq
    simpa using this.symm
  have hdp1 : dpair.1 = ['.'] ∨ dpair.1 = [] := by
    rcases hdp with hdp | hdp
    · split at hdp
      · simp at hdp
        rw [hdp]
        exact Or.inl rfl
      · simp at hdp
    · simp only [List.mem_singleton] at hdp
      rw [hdp]
      exact Or.inr rfl
  intro c hc
  rw [hcap] at hc
  simp only [List.mem_append] at hc
  rcases hc with (hc | hc) | hc
  · exact Or.inl (List.mem_takeWhile_imp (List.take_subset _ _ hc))
  · rcases hdp1 with h1 | h1 <;> rw [h1] at hc <;> simp at hc
    exact Or.inr hc
  · have hd : c ∈ dpair.2.takeWhile isDig := List.take_subset _ _ hc
    have := List.mem_takeWhile_imp hd
    exact Or.inl (by simp [isAmtChar, this])

/-- The amount capture of a successful transaction-pattern match at a
position consists of digits, commas and dots. -/
theorem matchTxnAt_amount_chars {cs : List Char} {g : TxnGroups}
    (h : matchTxnAt cs = some g) : ∀ c ∈ g.gamount, isAmtChar c = true ∨ c = '.' := by
  unfold matchTxnAt at h
  obtain ⟨⟨dcap, r1⟩, _, h⟩ := findSome?_eq_some_exists h
  obtain ⟨r2, _, h⟩ := findSome?_eq_some_exists h
  obtain ⟨⟨desccap, r3⟩, _, h⟩ := findSome?_eq_some_exists h
  obtain ⟨r4, _, h⟩ := findSome?_eq_some_exists h
  obtain ⟨⟨acap, r5⟩, hmem, h⟩ := findSome?_eq_some_exists h
  obtain ⟨r6, _, h⟩ := findSome?_eq_some_exists h
  cases hd : (dcOpts r6).head? with
  | none => rw [hd] at h; simp at h
  | some p =>
    rw [hd] at h
    simp only [Option.map_some] at h
    have hg : g = ⟨dcap, desccap, acap, p.1⟩ := by
      cases h
      rfl
    rw [hg]
    exact amountOpts_chars hmem

/-- The amount capture of a transaction-pattern search consists of
digits, commas and dots. -/
theorem searchTxn_amount_chars {cs : List Char} {g : TxnGroups}
    (h : searchTxn cs = some g) : ∀ c ∈ g.gamount, isAmtChar c = true ∨ c = '.' := by
  induction cs with
  | nil =>
    simp only [searchTxn] at h
    exact matchTxnAt_amount_chars h
  | cons c t ih =>
    cases hm : matchTxnAt (c :: t) with
    | some g2 =>
      simp only [searchTxn, hm] at h
      cases h
      exact matchTxnAt_amount_chars hm
    | none =>
      simp only [searchTxn, hm] at h
      exact ih h

/-- Python float() of a string without a leading minus sign is
nonnegative. -/
theorem pyFloat_nonneg {s : List Char} {d : Dec}
    (hs : s.head? ≠ some '-') (h : pyFloat s = some d) : 0 ≤ d.man := by
  unfold pyFloat at h
  split at h
  · simp at hs
  · dsimp only at h
    split at h
    · split at h
      · simp at h
      · cases h; simp
    · split at h
      · simp at h
      · split at h
        · simp at h
        · cases h; simp
    · simp at h
  · dsimp only at h
    split at h
    · split at h
      · simp at h
      · cases h; simp
    · split at h
      · simp at h
      · split at h
        · simp at h
        · cases h; simp
    · simp at h

/-- Nonnegative mantissa gives a nonnegative decimal value. -/
theorem Dec.val_nonneg {d : Dec} (h : 0 ≤ d.man) : 0 ≤ Dec.val d := by
  unfold Dec.val
  apply div_nonneg
  · exact_mod_cast h
  · positivity

/-- A comma-stripped amount capture cannot start with a minus sign. -/
theorem stripCommas_head_not_minus {l : List Char}
    (h : ∀ c ∈ l, isAmtChar c = true ∨ c = '.') :
    (stripCommas l).head? ≠ some '-' := by
  intro hhead
  have hmem : '-' ∈ stripCommas l := by
    cases hl : stripCommas l with
    | nil => rw [hl] at hhead; simp at hhead
    | cons a t =>
      rw [hl] at hhead
      simp at hhead
      rw [hhead]
      exact List.mem_cons_self _ _
  have : '-' ∈ l := List.mem_of_mem_filter hmem
  rcases h '-' this with hc | hc
  · simp [isAmtChar, isDig] at hc
  · simp at hc

/-- C1 (amended): every transaction row staged by parse_file_task from
parse_pdf_by_bank output has a nonnegative (not necessarily positive)
amount, a DEBIT or CREDIT direction, and a resolved txn_date; lines whose
date or amount fail to convert are dropped, but a matched line with
amount 0 is staged, and when no line matches, the single zero-amount
"Sample PDF Transaction" placeholder is staged rather than nothing. -/
theorem C1_staged_pdf_rows_nonneg :
    ∀ (bank text : List Char) (now : DateD) (batch : ETLBatch),
      ∀ t ∈ (parse_file_task_success batch (parse_pdf_by_bank bank text now)).2,
        (∃ d : Dec, t.amount = some d ∧ 0 ≤ Dec.val d) ∧
        (t.direction = some "DEBIT".toList ∨ t.direction = some "CREDIT".toList) ∧
        t.txn_date.isSome = true := by
  intro bank text now batch t ht
  simp only [parse_file_task_success] at ht
  obtain ⟨r, hr, rfl⟩ := List.mem_map.mp ht
  refine ⟨⟨r.amount, rfl, ?_⟩, ?_, rfl⟩
  · apply Dec.val_nonneg
    simp only [parse_pdf_by_bank] at hr
    split at hr
    · simp at hr
      rw [hr]
      simp [samplePdfRec]
    · obtain ⟨line, _, hline⟩ := List.mem_filterMap.mp hr
      unfold pdfLineToRec at hline
      cases hsg : searchTxn line with
      | none => rw [hsg] at hline; simp at hline
      | some g =>
        rw [hsg] at hline
        dsimp only at hline
        cases hdt : detectDateChain g.gdate with
        | none => rw [hdt] at hline; simp at hline
        | some dt =>
          rw [hdt] at hline
          cases hamt : pyFloat (stripCommas g.gamount) with
          | none => rw [hamt] at hline; simp at hline
          | some amt =>
            rw [hamt] at hline
            have hr2 : r.amount = amt := by
              cases hline
              rfl
            rw [hr2]
            exact pyFloat_nonneg
              (stripCommas_head_not_minus (searchTxn_amount_chars hsg)) hamt
  · simp only [parse_pdf_by_bank] at hr
    split at hr
    · simp at hr
      rw [hr]
      exact Or.inl rfl
    · obtain ⟨line, _, hline⟩ := List.mem_filterMap.mp hr
      unfold pdfLineToRec at hline
      cases hsg : searchTxn line with
      | none => rw [hsg] at hline; simp at hline
      | some g =>
        rw [hsg] at hline
        dsimp only at hline
        cases hdt : detectDateChain g.gdate with
        | none => rw [hdt] at hline; simp at hline
        | some dt =>
          rw [hdt] at hline
          cases hamt : pyFloat (stripCommas g.gamount) with
          | none => rw [hamt] at hline; simp at hline
          | some amt =>
            rw [hamt] at hline
            cases hline
            by_cases hdc : (upStr g.gdc == "DR".toList || upStr g.gdc == "DEBIT".toList) = true
            · exact Or.inl (by simp at hdc; simp [stageRecord, hdc])
            · exact Or.inr (by simp at hdc; simp [stageRecord, hdc.1, hdc.2])

/-- Witness for C1_staged_pdf_rows_nonneg at the empty-text placeholder
row itself. -/
theorem C1_staged_pdf_rows_nonneg_witness :
    (∃ d : Dec,
      (stageRecord "b1".toList "u1".toList
        (samplePdfRec "UNKNOWN".toList ⟨2025, 1, 1⟩)).amount = some d ∧ 0 ≤ Dec.val d) ∧
    ((stageRecord "b1".toList "u1".toList
        (samplePdfRec "UNKNOWN".toList ⟨2025, 1, 1⟩)).direction = some "DEBIT".toList ∨
      (stageRecord "b1".toList "u1".toList
        (samplePdfRec "UNKNOWN".toList ⟨2025, 1, 1⟩)).direction = some "CREDIT".toList) ∧
    (stageRecord "b1".toList "u1".toList
        (samplePdfRec "UNKNOWN".toList ⟨2025, 1, 1⟩)).txn_date.isSome = true :=
  C1_staged_pdf_rows_nonneg "UNKNOWN".toList [] ⟨2025, 1, 1⟩
    { batch_id := "b1".toList, user_id := "u1".toList }
    (stageRecord "b1".toList "u1".toList (samplePdfRec "UNKNOWN".toList ⟨2025, 1, 1⟩))
    (by decide)

/-- C1 counterexample: a PDF whose text yields no matching line stages a
single placeholder row with amount exactly 0 (violating amount strictly
greater than 0) and description "Sample PDF Transaction". -/
theorem C1_zero_amount_placeholder_staged :
    ∃ t ∈ (parse_file_task_success { batch_id := "b1".toList, user_id := "u1".toList }
        (parse_pdf_by_bank "UNKNOWN".toList [] ⟨2025, 1, 1⟩)).2,
      t.amount = some ⟨0, 0⟩ ∧ Dec.val ⟨0, 0⟩ = 0 ∧
      t.description = some "Sample PDF Transaction".toList := by
  refine ⟨stageRecord "b1".toList "u1".toList (samplePdfRec "UNKNOWN".toList ⟨2025, 1, 1⟩),
    ?_, rfl, ?_, rfl⟩
  · decide
  · simp [Dec.val]

/-- C6 counterexample: on the two-digit-year date 01/01/24 the claimed
four-format chain succeeds via %d/%m/%y, and parse_pdf_generic_lines in
etl.py keeps the line; but parse_pdf_by_bank in detect_bank_and_parse.py
tries only %d/%m/%Y and %d-%m-%Y, so the same line is dropped there and
only the placeholder is returned. -/
theorem C6_two_digit_year_divergence :
    specDateChain4 "01/01/24".toList = some ⟨2024, 1, 1⟩ ∧
    detectDateChain "01/01/24".toList = none ∧
    (parse_pdf_generic_lines "01/01/24 SHOP 500.00 DR".toList).map (fun r => r.txn_date) =
      [⟨2024, 1, 1⟩] ∧
    parse_pdf_by_bank "UNKNOWN".toList "01/01/24 SHOP 500.00 DR".toList ⟨2025, 1, 1⟩ =
      [samplePdfRec "UNKNOWN".toList ⟨2025, 1, 1⟩] := by
  refine ⟨by decide, by decide, by decide, by decide⟩

/-- C6 (amended): the etl.py generic line parser's nested try/except is
exactly first-success over the format list %d/%m/%Y, %d/%m/%y, %d-%m-%Y,
%d-%m-%y, and a matched line whose date fails the whole chain is skipped;
the detect_bank_and_parse.py PDF parser instead implements first-success
over only %d/%m/%Y and %d-%m-%Y, so its lines are skipped whenever those
two fail. -/
theorem C6_date_chain_first_success :
    (∀ s : List Char, etlDateChain s = specDateChain4 s) ∧
    (∀ s : List Char, detectDateChain s = specDateChain2 s) ∧
    (∀ (line : List Char) (g : TxnGroups), searchTxn line = some g →
      etlDateChain g.gdate = none → etlLineToRow line = none) ∧
    (∀ (bank line : List Char) (g : TxnGroups), searchTxn line = some g →
      detectDateChain g.gdate = none → pdfLineToRec bank line = none) := by
  refine ⟨?_, ?_, ?_, ?_⟩
  · intro s
    cases h1 : strptimeD fmtDMYslash s <;>
      cases h2 : strptimeD fmtDMyslash s <;>
        cases h3 : strptimeD fmtDMYdash s <;>
          cases h4 : strptimeD fmtDMydash s <;>
            simp [etlDateChain, specDateChain4, tryFormats, List.findSome?_cons, h1, h2, h3, h4]
  · intro s
    cases h1 : strptimeD fmtDMYslash s <;>
      cases h3 : strptimeD fmtDMYdash s <;>
        simp [detectDateChain, specDateChain2, tryFormats, List.findSome?_cons, h1, h3]
  · intro line g hsg hnone
    unfold etlLineToRow
    rw [hsg]
    dsimp only
    rw [hnone]
  · intro bank line g hsg hnone
    unfold pdfLineToRec
    rw [hsg]
    dsimp only
    rw [hnone]

/-- Witness for C6_date_chain_first_success: the chain equalities at the
divergence input, and the skip behaviour on a line whose date defeats
every format. -/
theorem C6_date_chain_first_success_witness :
    etlDateChain "01/01/24".toList = specDateChain4 "01/01/24".toList ∧
    detectDateChain "01/01/24".toList = specDateChain2 "01/01/24".toList ∧
    etlLineToRow "99/99/9999 X 1.00 DR".toList = none :=
  ⟨C6_date_chain_first_success.1 "01/01/24".toList,
   C6_date_chain_first_success.2.1 "01/01/24".toList,
   C6_date_chain_first_success.2.2.1 "99/99/9999 X 1.00 DR".toList
     ⟨"99/99/9999".toList, "X".toList, "1.00".toList, "DR".toList⟩
     (by decide) (by decide)⟩

/-- C4 counterexample: with a wrong password supplied, the raised message
is "PDF password is incorrect. Please check the password and try again.",
which is not the exact message "PDF password is incorrect." quoted by the
claim. -/
theorem C4_wrong_password_message :
    parse_pdf_statement
        (.failed "pdf is encrypted".toList "PdfminerException".toList)
        "GENERIC".toList (some "wrongpw".toList) =
      .error "PDF password is incorrect. Please check the password and try again.".toList ∧
    "PDF password is incorrect. Please check the password and try again.".toList ≠
      "PDF password is incorrect.".toList := by
  refine ⟨by decide, by decide⟩

/-- C4 (amended): when opening the PDF fails with a password/encryption
error, a missing (or empty, hence falsy) password raises exactly
"PDF is password protected. Please provide the password." and a supplied
password raises exactly "PDF password is incorrect. Please check the
password and try again." (which begins with the claim's quoted prefix);
the two messages differ from each other and neither is the generic
"Failed to open PDF: ..." failure. -/
theorem C4_password_error_messages :
    ∀ (msg typeName bank : List Char) (pw : Option (List Char)),
      (containsSub (lowStr msg) "password".toList = true ∨
       containsSub (lowStr msg) "encrypted".toList = true ∨
       containsSub typeName "PDFPasswordIncorrect".toList = true) →
      (pwTruthy pw = false →
        parse_pdf_statement (.failed msg typeName) bank pw =
          .error "PDF is password protected. Please provide the password.".toList) ∧
      (pwTruthy pw = true →
        parse_pdf_statement (.failed msg typeName) bank pw =
          .error "PDF password is incorrect. Please check the password and try again.".toList) ∧
      isPre "PDF password is incorrect.".toList
        "PDF password is incorrect. Please check the password and try again.".toList = true ∧
      "PDF is password protected. Please provide the password.".toList ≠
        "PDF password is incorrect. Please check the password and try again.".toList ∧
      isPre "Failed to open PDF:".toList
        "PDF password is incorrect. Please check the password and try again.".toList = false ∧
      isPre "Failed to open PDF:".toList
        "PDF is password protected. Please provide the password.".toList = false := by
  intro msg typeName bank pw hcond
  have hc : (containsSub (lowStr msg) "password".toList ||
      containsSub (lowStr msg) "encrypted".toList ||
      containsSub typeName "PDFPasswordIncorrect".toList) = true := by
    rw [Bool.or_eq_true, Bool.or_eq_true]
    rcases hcond with h | h | h
    · exact Or.inl (Or.inl h)
    · exact Or.inl (Or.inr h)
    · exact Or.inr h
  refine ⟨?_, ?_, by decide, by decide, by decide, by decide⟩
  · intro hpw
    simp only [parse_pdf_statement, hc, hpw]
    rfl
  · intro hpw
    simp only [parse_pdf_statement, hc, hpw]
    rfl

/-- Witness for C4_password_error_messages on a concrete encrypted-PDF
failure with no password supplied. -/
theorem C4_password_error_messages_witness :
    (pwTruthy none = false →
      parse_pdf_statement (.failed "file has not been decrypted".toList "PDFPasswordIncorrectError".toList)
          "HDFC".toList none =
        .error "PDF is password protected. Please provide the password.".toList) ∧
    (pwTruthy none = true →
      parse_pdf_statement (.failed "file has not been decrypted".toList "PDFPasswordIncorrectError".toList)
          "HDFC".toList none =
        .error "PDF password is incorrect. Please check the password and try again.".toList) ∧
    isPre "PDF password is incorrect.".toList
      "PDF password is incorrect. Please check the password and try again.".toList = true ∧
    "PDF is password protected. Please provide the password.".toList ≠
      "PDF password is incorrect. Please check the password and try again.".toList ∧
    isPre "Failed to open PDF:".toList
      "PDF password is incorrect. Please check the password and try again.".toList = false ∧
    isPre "Failed to open PDF:".toList
      "PDF is password protected. Please provide the password.".toList = false :=
  C4_password_error_messages "file has not been decrypted".toList
    "PDFPasswordIncorrectError".toList "HDFC".toList none
    (Or.inr (Or.inr (by decide)))

/-- C7 counterexample: the description "gas bill" contains both the
specific key "gas bill" (UTILITIES/GAS) and the shorter key "gas"
(TRANSPORT/FUEL), yet the categorizer returns TRANSPORT/FUEL because
"gas" appears earlier in KEYWORD_MAP's insertion order. -/
theorem C7_gas_bill_loses_to_gas :
    categorize_transaction "gas bill".toList ⟨100, 0⟩ =
      ("TRANSPORT".toList, "FUEL".toList, ⟨9, 1⟩) ∧
    containsSub (lowStr "gas bill".toList) "gas bill".toList = true ∧
    containsSub (lowStr "gas bill".toList) "gas".toList = true ∧
    ("gas bill".toList, "UTILITIES".toList, "GAS".toList) ∈ KEYWORD_MAP ∧
    ("TRANSPORT".toList, "FUEL".toList) ≠ ("UTILITIES".toList, "GAS".toList) := by
  refine ⟨by decide, by decide, by decide, by decide, by decide⟩

/-- C7 (amended): the keyword stage of categorize_transaction tests keys
in KEYWORD_MAP's insertion order, not most-specific-first: whenever some
key is contained in the lowercased description, the result is the first
such entry in table order.  "credit card payment" is listed before
"credit card", so the specific key wins there, but "gas" is listed before
"gas bill", so a description containing "gas bill" resolves to the
generic TRANSPORT/FUEL entry. -/
theorem C7_keyword_order_is_insertion_order :
    (∀ (description : List Char) (amount : Dec) (channel : Option (List Char))
        (raw_meta : List (List Char × List Char)),
      (∃ e ∈ KEYWORD_MAP, containsSub (lowStr description) e.1 = true) →
      ∃ e2, KEYWORD_MAP.find? (fun e => containsSub (lowStr description) e.1) = some e2 ∧
        categorize_transaction description amount channel raw_meta = (e2.2.1, e2.2.2, ⟨9, 1⟩)) ∧
    categorize_transaction "credit card payment".toList ⟨100, 0⟩ =
      ("DEBT".toList, "CREDIT_CARD_PAYMENT".toList, ⟨9, 1⟩) ∧
    categorize_transaction "gas bill".toList ⟨100, 0⟩ =
      ("TRANSPORT".toList, "FUEL".toList, ⟨9, 1⟩) := by
  refine ⟨?_, by decide, by decide⟩
  intro description amount channel raw_meta hex
  have hsome : (KEYWORD_MAP.find? (fun e => containsSub (lowStr description) e.1)).isSome = true := by
    rw [List.find?_isSome]
    obtain ⟨e, he, hc⟩ := hex
    exact ⟨e, he, hc⟩
  cases hf : KEYWORD_MAP.find? (fun e => containsSub (lowStr description) e.1) with
  | none => rw [hf] at hsome; simp at hsome
  | some e2 =>
    refine ⟨e2, rfl, ?_⟩
    unfold categorize_transaction
    dsimp only
    rw [hf]

/-- Witness for C7_keyword_order_is_insertion_order on the description
"gas bill", whose keyword-stage winner is the earlier generic entry. -/
theorem C7_keyword_order_witness :
    ∃ e2, KEYWORD_MAP.find? (fun e => containsSub (lowStr "gas bill".toList) e.1) = some e2 ∧
      categorize_transaction "gas bill".toList ⟨100, 0⟩ none [] = (e2.2.1, e2.2.2, ⟨9, 1⟩) :=
  C7_keyword_order_is_insertion_order.1 "gas bill".toList ⟨100, 0⟩ none []
    ⟨("gas".toList, "TRANSPORT".toList, "FUEL".toList), by decide, by decide⟩

/-- C8 counterexample: running parse, then categorize, then parse again
on the same batch moves the status pending, parsed, categorized, parsed —
the last step moves the batch from categorized (rank 2) back to parsed
(rank 1), because the task writes its status unconditionally. -/
theorem C8_parse_rerun_regresses :
    statusTrace "pending".toList [PipeStep.parseOk, PipeStep.catOk, PipeStep.parseOk] =
      ["pending".toList, "parsed".toList, "categorized".toList, "parsed".toList] ∧
    statusRank "categorized".toList = some 2 ∧
    statusRank "parsed".toList = some 1 ∧ (1 : Nat) < 2 := by
  refine ⟨by decide, by decide, by decide, by decide⟩

/-- C8 (amended): a run whose successful steps follow the pipeline order
without re-running an earlier step (any sublist of parse-then-categorize)
never decreases the status rank, and a failing step always sets failed
from any state; but status writes are unconditional, so re-running parse
on a categorized batch regresses it to parsed. -/
theorem C8_forward_only_without_reruns :
    (∀ l : List PipeStep, l.Sublist [PipeStep.parseOk, PipeStep.catOk] →
      List.Chain' (fun a b => (statusRank a).getD 0 ≤ (statusRank b).getD 0)
        (statusTrace "pending".toList l)) ∧
    (∀ st : List Char, applyPipeStep st .parseFail = "failed".toList ∧
      applyPipeStep st .catFail = "failed".toList) ∧
    applyPipeStep "categorized".toList .parseOk = "parsed".toList := by
  refine ⟨?_, fun st => ⟨rfl, rfl⟩, rfl⟩
  intro l hl
  rw [← List.mem_sublists] at hl
  simp only [List.sublists] at hl
  fin_cases hl <;>
      norm_num [statusTrace, applyPipeStep, statusRank, List.chain'_cons, List.chain'_singleton] <;>
    decide

/-- Witness for C8_forward_only_without_reruns at the full first-run
sequence parse-then-categorize. -/
theorem C8_forward_only_witness :
    List.Chain' (fun a b => (statusRank a).getD 0 ≤ (statusRank b).getD 0)
      (statusTrace "pending".toList [PipeStep.parseOk, PipeStep.catOk]) :=
  C8_forward_only_without_reruns.1 [PipeStep.parseOk, PipeStep.catOk] (by decide)

/-- C9 (confirmed): a successful parse_file_task run sets valid_records
equal to total_records, both equal to the parser-output count, stages
every record unchanged with no structural validation, and never touches
invalid_records, which therefore stays 0. -/
theorem C9_parse_counts_all_valid :
    ∀ (batch : ETLBatch) (records : List PRec),
      batch.invalid_records = 0 →
      (parse_file_task_success batch records).1.valid_records =
        (parse_file_task_success batch records).1.total_records ∧
      (parse_file_task_success batch records).1.total_records = records.length ∧
      (parse_file_task_success batch records).1.invalid_records = 0 ∧
      (parse_file_task_success batch records).1.status = "parsed".toList ∧
      (parse_file_task_success batch records).2 =
        records.map (stageRecord batch.batch_id batch.user_id) ∧
      ∀ r ∈ records, ∃ t ∈ (parse_file_task_success batch records).2,
        t.amount = some r.amount ∧ t.direction = some r.direction ∧
        t.description = some r.description := by
  intro batch records hinv
  refine ⟨rfl, rfl, hinv, rfl, rfl, ?_⟩
  intro r hr
  exact ⟨stageRecord batch.batch_id batch.user_id r,
    List.mem_map_of_mem _ hr, rfl, rfl, rfl⟩

/-- Witness for C9_parse_counts_all_valid: a pending batch with a
zero-amount placeholder record is still counted fully valid and staged. -/
theorem C9_parse_counts_witness :
    (parse_file_task_success { batch_id := "b9".toList, user_id := "u9".toList }
        [samplePdfRec "UNKNOWN".toList ⟨2025, 2, 2⟩]).1.valid_records =
      (parse_file_task_success { batch_id := "b9".toList, user_id := "u9".toList }
        [samplePdfRec "UNKNOWN".toList ⟨2025, 2, 2⟩]).1.total_records ∧
    (parse_file_task_success { batch_id := "b9".toList, user_id := "u9".toList }
        [samplePdfRec "UNKNOWN".toList ⟨2025, 2, 2⟩]).1.total_records = 1 ∧
    (parse_file_task_success { batch_id := "b9".toList, user_id := "u9".toList }
        [samplePdfRec "UNKNOWN".toList ⟨2025, 2, 2⟩]).1.invalid_records = 0 ∧
    (parse_file_task_success { batch_id := "b9".toList, user_id := "u9".toList }
        [samplePdfRec "UNKNOWN".toList ⟨2025, 2, 2⟩]).1.status = "parsed".toList ∧
    (parse_file_task_success { batch_id := "b9".toList, user_id := "u9".toList }
        [samplePdfRec "UNKNOWN".toList ⟨2025, 2, 2⟩]).2 =
      [samplePdfRec "UNKNOWN".toList ⟨2025, 2, 2⟩].map
        (stageRecord "b9".toList "u9".toList) ∧
    ∀ r ∈ [samplePdfRec "UNKNOWN".toList ⟨2025, 2, 2⟩],
      ∃ t ∈ (parse_file_task_success { batch_id := "b9".toList, user_id := "u9".toList }
          [samplePdfRec "UNKNOWN".toList ⟨2025, 2, 2⟩]).2,
        t.amount = some r.amount ∧ t.direction = some r.direction ∧
        t.description = some r.description :=
  C9_parse_counts_all_valid { batch_id := "b9".toList, user_id := "u9".toList }
    [samplePdfRec "UNKNOWN".toList ⟨2025, 2, 2⟩] rfl

instance : IsTotal CRule (fun a b => a.priority ≤ b.priority) :=
  ⟨fun a b => le_total a.priority b.priority⟩

instance : IsTrans CRule (fun a b => a.priority ≤ b.priority) :=
  ⟨fun _ _ _ hab hbc => le_trans hab hbc⟩

/-- In a priority-sorted rule list, the first matching rule is the
matching rule with strictly least priority. -/
theorem find_min_of_sorted {l : List CRule} {r : RowG} {A : CRule}
    (hs : l.Sorted (fun a b => a.priority ≤ b.priority))
    (hA : A ∈ l) (hm : ruleMatches A r = true)
    (hmin : ∀ B ∈ l, ruleMatches B r = true → B ≠ A → A.priority < B.priority) :
    l.find? (fun B => ruleMatches B r) = some A := by
  induction l with
  | nil => simp at hA
  | cons h t ih =>
    rw [List.sorted_cons] at hs
    obtain ⟨hhd, hts⟩ := hs
    cases hmh : ruleMatches h r with
    | true =>
      have hhA : h = A := by
        by_contra hne
        have hlt : A.priority < h.priority :=
          hmin h (List.mem_cons_self h t) hmh hne
        rcases List.mem_cons.mp hA with he | ht2
        · exact hne he.symm
        · exact absurd (hhd A ht2) (not_le.mpr hlt)
      subst hhA
      simp [List.find?_cons, hmh]
    | false =>
      have hAt : A ∈ t := by
        rcases List.mem_cons.mp hA with he | ht2
        · rw [← he] at hmh; rw [hm] at hmh; cases hmh
        · exact ht2
      have := ih hts hAt
        (fun B hB hBm hne => hmin B (List.mem_cons_of_mem h hB) hBm hne)
      simp [List.find?_cons, hmh, this]

/-- C3 (confirmed): the engine skips a rule whose truthy direction filter
mismatches the row and a rule whose configured match field is empty on
the row; and for any rule table and any permutation of it, when a
matching, active, bank-eligible rule has strictly the lowest priority
among all matching eligible rules, that rule's categories are assigned —
the winner is fixed by priority, not by table insertion order. -/
theorem C3_lowest_priority_rule_wins :
    (∀ (rule : CRule) (r : RowG) (d : List Char),
        rule.direction = some d → d ≠ [] → d ≠ r.direction → ruleMatches rule r = false) ∧
    (∀ (rule : CRule) (r : RowG),
        (rowFieldGet r rule.match_field).getD [] = [] → ruleMatches rule r = false) ∧
    (∀ (tbl tbl2 : List CRule) (bank : List Char) (r : RowG) (A : CRule),
        tbl2.Perm tbl →
        A ∈ tbl → A.is_active = true → (A.bank_code = some bank ∨ A.bank_code = none) →
        ruleMatches A r = true →
        (∀ B ∈ tbl, B.is_active = true → (B.bank_code = some bank ∨ B.bank_code = none) →
          ruleMatches B r = true → B ≠ A → A.priority < B.priority) →
        apply_categorization_rules tbl [r] bank = [(r, A.primary_category, A.sub_category)] ∧
        apply_categorization_rules tbl2 [r] bank = [(r, A.primary_category, A.sub_category)]) := by
  refine ⟨?_, ?_, ?_⟩
  · intro rule r d hd hne hmis
    unfold ruleMatches
    rw [hd]
    have h1 : d.isEmpty = false := by
      cases d
      · exact absurd rfl hne
      · rfl
    simp [h1, hmis]
  · intro rule r hempty
    unfold ruleMatches
    split <;> simp [hempty, lowStr]
  · intro tbl tbl2 bank r A hperm hA hact hbank hm hmin
    have key : ∀ t : List CRule, t.Perm tbl →
        apply_categorization_rules t [r] bank = [(r, A.primary_category, A.sub_category)] := by
      intro t ht
      have hfilter : ∀ B : CRule, B ∈ t.filter
          (fun rl => rl.is_active && (rl.bank_code == some bank || rl.bank_code == none)) ↔
          B ∈ t ∧ B.is_active = true ∧ (B.bank_code = some bank ∨ B.bank_code = none) := by
        intro B
        rw [List.mem_filter]
        constructor
        · rintro ⟨hBm, hp⟩
          simp only [Bool.and_eq_true, Bool.or_eq_true, beq_iff_eq] at hp
          exact ⟨hBm, hp.1, by
            rcases hp.2 with h | h
            · exact Or.inl h
            · exact Or.inr (by simpa using h)⟩
        · rintro ⟨hBm, hac, hbk⟩
          refine ⟨hBm, ?_⟩
          simp only [Bool.and_eq_true, Bool.or_eq_true, beq_iff_eq]
          refine ⟨hac, ?_⟩
          rcases hbk with h | h
          · exact Or.inl h
          · exact Or.inr (by simp [h])
      have hsorted : (fetchActiveRules t bank).Sorted (fun a b => a.priority ≤ b.priority) :=
        List.sorted_insertionSort _ _
      have hpermSort : (fetchActiveRules t bank).Perm
          (t.filter (fun rl => rl.is_active && (rl.bank_code == some bank || rl.bank_code == none))) :=
        List.perm_insertionSort _ _
      have hAmem : A ∈ fetchActiveRules t bank := by
        rw [hpermSort.mem_iff, hfilter]
        exact ⟨ht.mem_iff.mpr hA, hact, hbank⟩
      have hminS : ∀ B ∈ fetchActiveRules t bank,
          ruleMatches B r = true → B ≠ A → A.priority < B.priority := by
        intro B hB hBm hne
        rw [hpermSort.mem_iff, hfilter] at hB
        exact hmin B (ht.mem_iff.mp hB.1) hB.2.1 hB.2.2 hBm hne
      have hfind := find_min_of_sorted hsorted hAmem hm hminS
      unfold apply_categorization_rules
      simp [hfind]
    exact ⟨key tbl (List.Perm.refl tbl), key tbl2 hperm⟩

/-- Concrete rule: priority 1, contains netflix, entertainment. -/
def c3ruleA : CRule :=
  { rule_id := 1, bank_code := none, match_field := "description".toList,
    match_type := "contains".toList, match_value := some "netflix".toList,
    direction := none, primary_category := "entertainment".toList,
    sub_category := "ott".toList, priority := 1, is_active := true,
    regex_search := fun _ => false }

/-- Concrete rule: priority 5, contains netflix, shopping. -/
def c3ruleB : CRule :=
  { rule_id := 2, bank_code := none, match_field := "description".toList,
    match_type := "contains".toList, match_value := some "netflix".toList,
    direction := none, primary_category := "shopping".toList,
    sub_category := "retail".toList, priority := 5, is_active := true,
    regex_search := fun _ => false }

/-- Concrete canonical row whose description matches both rules. -/
def c3row : RowG :=
  { txn_date := ⟨2024, 1, 1⟩, amount := ⟨45000, 2⟩, direction := "debit".toList,
    description := "NETFLIX PAYMENT".toList, ref_no := none }

/-- Witness for C3_lowest_priority_rule_wins: with the higher-priority
rule inserted first in the table, the priority-1 rule still wins, in both
insertion orders. -/
theorem C3_lowest_priority_rule_wins_witness :
    apply_categorization_rules [c3ruleB, c3ruleA] [c3row] "HDFC".toList =
      [(c3row, c3ruleA.primary_category, c3ruleA.sub_category)] ∧
    apply_categorization_rules [c3ruleA, c3ruleB] [c3row] "HDFC".toList =
      [(c3row, c3ruleA.primary_category, c3ruleA.sub_category)] :=
  C3_lowest_priority_rule_wins.2.2 [c3ruleB, c3ruleA] [c3ruleA, c3ruleB]
    "HDFC".toList c3row c3ruleA
    (List.Perm.swap c3ruleB c3ruleA [])
    (List.mem_cons_of_mem _ (List.mem_cons_self _ _))
    rfl (Or.inr rfl) (by decide)
    (by
      intro B hB hact hbank hm hne
      rcases List.mem_cons.mp hB with he | hB2
      · rw [he]; decide
      · rcases List.mem_cons.mp hB2 with he2 | hB3
        · exact absurd he2 hne
        · simp at hB3)

/-- Fingerprint of one staging row as the loader computes it. -/
def rowFp (extract : ExtractFn) (s : TxnStaging) : FPData :=
  fnTxnFactFp s (((extract s).1).getD [])

/-- Loader fold invariant: the fact table only grows, fingerprint
uniqueness is preserved, and every processed row's fingerprint is present
afterwards. -/
theorem load_go (extract : ExtractFn) :
    ∀ (l : List TxnStaging) (F : List TxnFact) (n : Nat),
      (F.map (fun f => f.dedupe_fp)).Nodup →
      (∃ E, (l.foldl (loadStep extract) (F, n)).1 = F ++ E) ∧
      ((l.foldl (loadStep extract) (F, n)).1.map (fun f => f.dedupe_fp)).Nodup ∧
      ∀ s ∈ l, rowFp extract s ∈
        (l.foldl (loadStep extract) (F, n)).1.map (fun f => f.dedupe_fp) := by
  intro l
  induction l with
  | nil =>
    intro F n hnd
    exact ⟨⟨[], by simp⟩, by simpa using hnd, by simp⟩
  | cons s l ih =>
    intro F n hnd
    rw [List.foldl_cons]
    cases hany : F.any (fun f => f.dedupe_fp == rowFp extract s) with
    | true =>
      have hstep : loadStep extract (F, n) s = (F, n) := by
        unfold loadStep
        simp only [rowFp] at hany
        simp [hany]
      rw [hstep]
      obtain ⟨⟨E, hE⟩, hnd2, hmem⟩ := ih F n hnd
      refine ⟨⟨E, hE⟩, hnd2, ?_⟩
      intro s2 hs2
      rcases List.mem_cons.mp hs2 with he | hm2
      · subst he
        obtain ⟨f, hf, hfp⟩ := List.any_eq_true.mp hany
        rw [beq_iff_eq] at hfp
        rw [hE]
        rw [List.map_append]
        exact List.mem_append_left _ (List.mem_map.mpr ⟨f, hf, hfp⟩)
      · exact hmem s2 hm2
    | false =>
      have hnotin : rowFp extract s ∉ F.map (fun f => f.dedupe_fp) := by
        intro hin
        obtain ⟨f, hf, hfp⟩ := List.mem_map.mp hin
        have : F.any (fun g => g.dedupe_fp == rowFp extract s) = true :=
          List.any_eq_true.mpr ⟨f, hf, (show (f.dedupe_fp == rowFp extract s) = true by rw [beq_iff_eq]; exact hfp)⟩
        rw [hany] at this
        cases this
      have hstep : loadStep extract (F, n) s =
          (F ++ [mkTxnFact s (extract s).1 (rowFp extract s)], n + 1) := by
        unfold loadStep
        simp only [rowFp] at hany ⊢
        simp [hany]
      rw [hstep]
      have hnd2 : ((F ++ [mkTxnFact s (extract s).1 (rowFp extract s)]).map
          (fun f => f.dedupe_fp)).Nodup := by
        rw [List.map_append, List.nodup_append]
        refine ⟨hnd, by simp, ?_⟩
        intro x hx
        simp only [List.map_cons, List.map_nil, List.mem_singleton]
        intro hx2
        apply hnotin
        have : (mkTxnFact s (extract s).1 (rowFp extract s)).dedupe_fp = rowFp extract s := rfl
        rw [hx2, this] at hx
        exact hx
      obtain ⟨⟨E, hE⟩, hnd3, hmem⟩ := ih _ (n + 1) hnd2
      refine ⟨⟨[mkTxnFact s (extract s).1 (rowFp extract s)] ++ E, by rw [hE, List.append_assoc]⟩,
        hnd3, ?_⟩
      intro s2 hs2
      rcases List.mem_cons.mp hs2 with he | hm2
      · subst he
        rw [hE, List.map_append]
        refine List.mem_append_left _ ?_
        rw [List.map_append]
        exact List.mem_append_right _ (by simp; rfl)
      · exact hmem s2 hm2

/-- A fold of the loader over rows whose fingerprints all already exist
changes nothing and inserts zero facts. -/
theorem load_noop (extract : ExtractFn) :
    ∀ (l : List TxnStaging) (F : List TxnFact) (n : Nat),
      (∀ s ∈ l, rowFp extract s ∈ F.map (fun f => f.dedupe_fp)) →
      l.foldl (loadStep extract) (F, n) = (F, n) := by
  intro l
  induction l with
  | nil => intro F n _; rfl
  | cons s l ih =>
    intro F n hall
    rw [List.foldl_cons]
    have hin := hall s (List.mem_cons_self s l)
    obtain ⟨f, hf, hfp⟩ := List.mem_map.mp hin
    have hany : F.any (fun f => f.dedupe_fp == rowFp extract s) = true :=
      List.any_eq_true.mpr ⟨f, hf, (show (f.dedupe_fp == rowFp extract s) = true by rw [beq_iff_eq]; exact hfp)⟩
    have hstep : loadStep extract (F, n) s = (F, n) := by
      unfold loadStep
      simp only [rowFp] at hany
      simp [hany]
    rw [hstep]
    exact ih F n (fun s2 hs2 => hall s2 (List.mem_cons_of_mem s hs2))

/-- In a fingerprint-unique fact table, a present fingerprint selects
exactly one fact. -/
theorem filter_fp_count :
    ∀ (F : List TxnFact) (fp : FPData),
      fp ∈ F.map (fun f => f.dedupe_fp) →
      (F.map (fun f => f.dedupe_fp)).Nodup →
      (F.filter (fun f => f.dedupe_fp == fp)).length = 1 := by
  intro F
  induction F with
  | nil => intro fp h _; simp at h
  | cons f t ih =>
    intro fp hin hnd
    rw [List.map_cons, List.nodup_cons] at hnd
    obtain ⟨hnotin, hndt⟩ := hnd
    by_cases he : f.dedupe_fp = fp
    · have hft : (t.filter (fun g => g.dedupe_fp == fp)).length = 0 := by
        rw [List.length_eq_zero]
        rw [List.filter_eq_nil_iff]
        intro g hg
        rw [beq_iff_eq]
        intro hgfp
        apply hnotin
        rw [he]
        rw [← hgfp]
        exact List.mem_map.mpr ⟨g, hg, rfl⟩
      simp [List.filter_cons, he, hft]
    · have hint : fp ∈ t.map (fun g => g.dedupe_fp) := by
        rw [List.map_cons, List.mem_cons] at hin
        rcases hin with h1 | h1
        · exact absurd h1.symm he
        · exact h1
      have := ih fp hint hndt
      simp [List.filter_cons, he, this]

/-- C2 (confirmed): the loader skips every staging row whose computed
fingerprint already has a fact, so starting from a fingerprint-unique
fact table, one load keeps uniqueness and leaves exactly one fact per
loaded row's fingerprint, and re-running the load on the same staging
rows inserts zero facts and leaves the fact table unchanged. -/
theorem C2_loader_idempotent_dedupe :
    ∀ (extract : ExtractFn) (facts : List TxnFact) (staging : List TxnStaging),
      (facts.map (fun f => f.dedupe_fp)).Nodup →
      load_staging_for_user extract (load_staging_for_user extract facts staging).1 staging =
        ((load_staging_for_user extract facts staging).1, 0) ∧
      ((load_staging_for_user extract facts staging).1.map (fun f => f.dedupe_fp)).Nodup ∧
      ∀ s ∈ staging, s.parsed_ok = true →
        ((load_staging_for_user extract facts staging).1.filter
          (fun f => f.dedupe_fp == rowFp extract s)).length = 1 := by
  intro extract facts staging hnd
  obtain ⟨⟨E, hE⟩, hnd2, hmem⟩ :=
    load_go extract (staging.filter (fun s => s.parsed_ok)) facts 0 hnd
  refine ⟨?_, hnd2, ?_⟩
  · unfold load_staging_for_user
    exact load_noop extract _ _ 0 hmem
  · intro s hs hok
    have hsl : s ∈ staging.filter (fun s => s.parsed_ok) :=
      List.mem_filter.mpr ⟨hs, hok⟩
    exact filter_fp_count _ _ (hmem s hsl) hnd2

/-- Concrete merchant extraction stub for the loader witness. -/
def c2extract : ExtractFn := fun _ => (none, none, none)

/-- Concrete parsed staging row for the loader witness. -/
def c2row : TxnStaging :=
  { user_id := "u2".toList, upload_id := some "up1".toList, raw_txn_id := none,
    txn_date := ⟨2024, 3, 1⟩, description_raw := some "SWIGGY 450".toList,
    amount := ⟨450, 0⟩, direction := "debit".toList, currency := none,
    merchant_raw := none, account_ref := none, parsed_ok := true }

/-- Witness for C2_loader_idempotent_dedupe: two copies of the same
source row load into exactly one fact, and a second load of the same rows
inserts zero facts. -/
theorem C2_loader_idempotent_dedupe_witness :
    load_staging_for_user c2extract
        (load_staging_for_user c2extract [] [c2row, c2row]).1 [c2row, c2row] =
      ((load_staging_for_user c2extract [] [c2row, c2row]).1, 0) ∧
    ((load_staging_for_user c2extract [] [c2row, c2row]).1.map
      (fun f => f.dedupe_fp)).Nodup ∧
    ∀ s ∈ [c2row, c2row], s.parsed_ok = true →
      ((load_staging_for_user c2extract [] [c2row, c2row]).1.filter
        (fun f => f.dedupe_fp == rowFp c2extract s)).length = 1 :=
  C2_loader_idempotent_dedupe c2extract [] [c2row, c2row] (by simp)

/-- Concrete HDFC sheet with a negative withdrawal cell. -/
def c5df : DFrame :=
  { cols := ["Value Date".toList, "Narration".toList, "Withdrawal Amt.".toList,
             "Deposit Amt.".toList]
    rows := [[("Value Date".toList, .cdate ⟨2024, 1, 15⟩),
              ("Narration".toList, .cstr "SWIGGY PAYMENT".toList),
              ("Withdrawal Amt.".toList, .num ⟨-450, 0⟩),
              ("Deposit Amt.".toList, .nan)]] }

/-- C5 counterexample: normalize_excel_df maps a debit cell of -450 to
amount -450 with direction debit — the raw cell value, not its absolute
value, which would be 450. -/
theorem C5_negative_debit_cell_kept_raw :
    normalize_excel_df (fun _ => none) c5df "HDFC".toList =
      .ok [{ txn_date := some ⟨2024, 1, 15⟩, amount := some ⟨-450, 0⟩,
             direction := some "debit".toList,
             description := some "SWIGGY PAYMENT".toList, ref_no := none }] ∧
    Dec.val ⟨-450, 0⟩ < 0 ∧
    Dec.val ⟨-450, 0⟩ ≠ Dec.val (Dec.dabs ⟨-450, 0⟩) := by
  refine ⟨by decide, by norm_num [Dec.val], by norm_num [Dec.val, Dec.dabs]⟩

/-- C5 (amended): in parse_excel_csv_by_bank a strictly positive debit
cell gives amount abs(cell) with direction DEBIT, and a NaN or
nonpositive debit cell falls through to the credit column, which gives
amount abs(cell) with direction CREDIT when strictly positive; in
normalize_excel_df a nonzero debit or credit cell gives amount equal to
the raw cell value (no absolute value) with the direction fixed
accordingly, while zero or NaN cells leave the fields unset; and the
decimal absolute value agrees with the rational absolute value. -/
theorem C5_debit_credit_cell_semantics :
    (∀ (bk : List Char) (toDT : Cell → Option DateD) (rec : NRec) (col : List Char) (q : Dec),
      colKey bk (lowStr (pyStrip col)) = some "debit".toList →
      (q.isZero = false → applyKeyVal bk toDT rec col (.num q) =
        .ok { rec with amount := some q, direction := some "debit".toList }) ∧
      (q.isZero = true → applyKeyVal bk toDT rec col (.num q) = .ok rec) ∧
      applyKeyVal bk toDT rec col .nan = .ok rec) ∧
    (∀ (bk : List Char) (toDT : Cell → Option DateD) (rec : NRec) (col : List Char) (q : Dec),
      colKey bk (lowStr (pyStrip col)) = some "credit".toList →
      (q.isZero = false → applyKeyVal bk toDT rec col (.num q) =
        .ok { rec with amount := some q, direction := some "credit".toList }) ∧
      (q.isZero = true → applyKeyVal bk toDT rec col (.num q) = .ok rec) ∧
      applyKeyVal bk toDT rec col .nan = .ok rec) ∧
    (∀ (dc : DetCols) (cells : List (List Char × Cell)) (dcol ccol : List Char) (q : Dec),
      dc.debit_col = some dcol → dc.credit_col = some ccol →
      rowLookup cells dcol = some (.num q) → q.isPos = true →
      excelAmountDir dc cells = some (q.dabs, "DEBIT".toList)) ∧
    (∀ (dc : DetCols) (cells : List (List Char × Cell)) (dcol ccol : List Char) (qc : Dec),
      dc.debit_col = some dcol → dc.credit_col = some ccol →
      (rowLookup cells dcol = some .nan ∨
        ∃ q0 : Dec, rowLookup cells dcol = some (.num q0) ∧ q0.isPos = false) →
      rowLookup cells ccol = some (.num qc) → qc.isPos = true →
      excelAmountDir dc cells = some (qc.dabs, "CREDIT".toList)) ∧
    (∀ q : Dec, Dec.val q.dabs = |Dec.val q|) := by
  refine ⟨?_, ?_, ?_, ?_, ?_⟩
  · intro bk toDT rec col q hkey
    refine ⟨?_, ?_, ?_⟩ <;> (try intro hz) <;>
      · unfold applyKeyVal
        dsimp only
        rw [hkey]
        simp +decide [cellIsNa, cellFloat]
        try simp [hz]
  · intro bk toDT rec col q hkey
    refine ⟨?_, ?_, ?_⟩ <;> (try intro hz) <;>
      · unfold applyKeyVal
        dsimp only
        rw [hkey]
        simp +decide [cellIsNa, cellFloat]
        try simp [hz]
  · intro dc cells dcol ccol q hdc hcc hlook hpos
    unfold excelAmountDir
    rw [hdc, hcc]
    dsimp only
    rw [hlook]
    simp [cellIsNa, cellFloat, hpos]
  · intro dc cells dcol ccol qc hdc hcc hdeb hlook hpos
    unfold excelAmountDir
    rw [hdc, hcc]
    dsimp only
    rcases hdeb with hnan | ⟨q0, hq0, hq0pos⟩
    · rw [hnan, hlook]
      simp [cellIsNa, cellFloat, hpos]
    · rw [hq0, hlook]
      simp [cellIsNa, cellFloat, hpos, hq0pos]
  · intro q
    unfold Dec.val Dec.dabs
    dsimp only
    rw [abs_div, Int.cast_abs, abs_of_nonneg (pow_nonneg (by norm_num : (0:ℚ) ≤ 10) q.exp)]

/-- Concrete instances of the amended C5 rule: an HDFC withdrawal cell of
-450 keeps its raw value with direction debit in normalize_excel_df, a
positive debit cell and a NaN-debit/positive-credit row give
abs/DEBIT and abs/CREDIT in parse_excel_csv_by_bank, and the decimal
absolute value agrees with the rational one at -450. -/
theorem C5_debit_credit_cell_semantics_witness :
    applyKeyVal "HDFC".toList (fun _ => none)
        { txn_date := none, amount := none, direction := none,
          description := some [], ref_no := none }
        "Withdrawal Amt.".toList (Cell.num ⟨-450, 0⟩) =
      .ok { txn_date := none, amount := some ⟨-450, 0⟩,
            direction := some "debit".toList,
            description := some [], ref_no := none } ∧
    excelAmountDir
        { date_col := none, desc_col := none, amount_col := none,
          debit_col := some "wd".toList, credit_col := some "dep".toList,
          balance_col := none }
        [("wd".toList, Cell.num ⟨450, 0⟩)] =
      some (Dec.dabs ⟨450, 0⟩, "DEBIT".toList) ∧
    excelAmountDir
        { date_col := none, desc_col := none, amount_col := none,
          debit_col := some "wd".toList, credit_col := some "dep".toList,
          balance_col := none }
        [("wd".toList, Cell.nan), ("dep".toList, Cell.num ⟨200, 0⟩)] =
      some (Dec.dabs ⟨200, 0⟩, "CREDIT".toList) ∧
    Dec.val (Dec.dabs ⟨-450, 0⟩) = |Dec.val ⟨-450, 0⟩| := by
  refine ⟨?_, ?_, ?_, ?_⟩
  · exact (C5_debit_credit_cell_semantics.1 "HDFC".toList (fun _ => none)
      { txn_date := none, amount := none, direction := none,
        description := some [], ref_no := none }
      "Withdrawal Amt.".toList ⟨-450, 0⟩ (by decide)).1 (by decide)
  · exact C5_debit_credit_cell_semantics.2.2.1
      { date_col := none, desc_col := none, amount_col := none,
        debit_col := some "wd".toList, credit_col := some "dep".toList,
        balance_col := none }
      [("wd".toList, Cell.num ⟨450, 0⟩)] "wd".toList "dep".toList ⟨450, 0⟩
      rfl rfl (by decide) (by decide)
  · exact C5_debit_credit_cell_semantics.2.2.2.1
      { date_col := none, desc_col := none, amount_col := none,
        debit_col := some "wd".toList, credit_col := some "dep".toList,
        balance_col := none }
      [("wd".toList, Cell.nan), ("dep".toList, Cell.num ⟨200, 0⟩)]
      "wd".toList "dep".toList ⟨200, 0⟩
      rfl rfl (Or.inl (by decide)) (by decide) (by decide)
  · exact C5_debit_credit_cell_semantics.2.2.2.2 ⟨-450, 0⟩

/-- C10: every staged transaction produced from a Gmail message has
direction DEBIT — the direction is a constant untouched by the
loan / credit-card / OTT classification, which only selects the channel
tag (EMAIL, LOAN_EMI, CREDIT_CARD or OTT_SUBSCRIPTION) and the raw_meta
fields — and the amount is exactly what parse_amount extracted from the
combined subject-and-body text, also when the match followed the keyword
credited. -/
theorem C10_gmail_rows_always_debit
    (u g b : List Char) (msgs : List Msg) (now : DateD) (r : GRow)
    (hr : r ∈ gmail_messages_to_staged_transactions u g b msgs now) :
    r.direction = "DEBIT".toList ∧
    (r.channel = "EMAIL".toList ∨ r.channel = "LOAN_EMI".toList ∨
      r.channel = "CREDIT_CARD".toList ∨ r.channel = "OTT_SUBSCRIPTION".toList) ∧
    ∃ m, m ∈ msgs ∧ parse_amount (msgCombined m) = some r.amount ∧
      r.txn_date = some (parse_date (msgCombined m) now) := by
  simp only [gmail_messages_to_staged_transactions, List.mem_filterMap] at hr
  obtain ⟨m, hm, hf⟩ := hr
  cases hpa : parse_amount (msgCombined m) with
  | none =>
    rw [hpa] at hf
    exact absurd hf (by simp)
  | some a =>
    rw [hpa] at hf
    dsimp only at hf
    split at hf <;>
    · rw [Option.some.injEq] at hf
      subst hf
      refine ⟨rfl, ?_, m, hm, hpa, rfl⟩
      cases hL : is_loan_email (msgSubject m) (msgBody m) <;>
        cases hC : is_credit_card_email (msgSubject m) (msgBody m) <;>
          cases hO : is_ott_email (msgSubject m) (msgBody m) <;>
            simp [hL, hC, hO]

/-- Concrete Gmail message whose amount is matched after the keyword
credited. -/
def c10msg : Msg :=
  { subject := some "Alert".toList, body := some "credited: 500.00 ok".toList }

/-- Row that gmail_messages_to_staged_transactions stages for c10msg. -/
def c10row : GRow :=
  { account_number_masked := "XXXX".toList
    bank_code := "UNKNOWN".toList
    txn_date := some ⟨2024, 1, 1⟩
    posted_date := none
    description := "Alert".toList
    amount := ⟨50000, 2⟩
    direction := "DEBIT".toList
    balance_after := none
    channel := "EMAIL".toList
    raw_meta :=
      { source := "gmail".toList
        gmail_message_id := none
        gmail_thread_id := none
        gmail_account_id := "g".toList
        subject := "Alert".toList
        mfrom := none
        mto := none
        snippet := none
        mtype := "GENERIC".toList
        reference := none } }

/-- Concrete instance of C10: a message whose amount 500.00 follows the
word credited is staged with direction DEBIT. -/
theorem C10_gmail_rows_always_debit_witness :
    c10row ∈ gmail_messages_to_staged_transactions "u".toList "g".toList "b".toList
        [c10msg] ⟨2024, 1, 1⟩ ∧
    c10row.direction = "DEBIT".toList ∧
    containsSub (msgCombined c10msg) "credited".toList = true ∧
    c10row.amount = ⟨50000, 2⟩ := by
  have hmem : c10row ∈ gmail_messages_to_staged_transactions "u".toList "g".toList "b".toList
      [c10msg] ⟨2024, 1, 1⟩ := by decide
  exact ⟨hmem,
    (C10_gmail_rows_always_debit "u".toList "g".toList "b".toList [c10msg] ⟨2024, 1, 1⟩
      c10row hmem).1,
    by decide, by decide⟩
